import Mathlib

/-!
# Verification of the orion-assistant-v2 backend core

A shallow embedding, in Lean 4, of the tool-calling core of the
`orion-assistant-v2` backend (Python, under `src/backend/`):

* `tools/registry.py` — tool catalog (`ParameterType`, `ToolParameter`, `Tool`,
  the thirteen default tools, `ToolRegistry.get`);
* `tools/validator.py` — `ToolValidator.validate_parameters`, `_validate_type`,
  `_validate_range`, `validate_permissions`, `validate_tool_request`;
* `services/device_service.py` — `check_device_permission`, `check_path_allowed`;
* `tools/router.py` — `ToolRouter.execute_tool` together with the execution-log
  collaborator `log_tool_execution` (`services/tool_execution_service.py`);
* `tools/llm_integration.py` — `parse_tool_call_from_response`,
  `extract_text_and_tool_call`, `format_tool_result_for_llm`;
* `main.py` — `add_message_to_conversation`, `_process_tool_call`,
  `handle_llm_request`, and the waiter map `tool_executions` used to correlate
  asynchronous device replies.

Python dynamic values are modelled by the inductive `PyValue` (`None`, `bool`,
`int`, `str`, `list`, `dict`); Python dicts are association lists with distinct
keys.  The modelled value domain omits floats: JSON numbers are restricted to
integer literals (the tool-call schema only uses integers, strings, booleans
and nested objects).  Exceptions are modelled with `Except`.  The registry,
`datetime` timestamps, SQLAlchemy sessions and the WebSocket transport are
modelled as explicit data / oracles passed to the functions that use them.
-/

set_option autoImplicit false

namespace Orion

/-- Python runtime values, as far as the backend core manipulates them.
`PyValue.pynone` is Python's `None`.  Floats are outside the modelled domain
(see the module docstring). -/
inductive PyValue where
  | pynone
  | pybool (b : Bool)
  | pyint (n : Int)
  | pystr (s : String)
  | pylist (xs : List PyValue)
  | pydict (xs : List (String × PyValue))

/-- Python's identity test `v is None`. -/
def PyValue.isNone : PyValue → Bool
  | .pynone => true
  | _ => false

/-- Python truthiness (`bool(v)`) for the modelled value domain. -/
def pyTruthy : PyValue → Bool
  | .pynone => false
  | .pybool b => b
  | .pyint n => n ≠ 0
  | .pystr s => s ≠ ""
  | .pylist xs => !xs.isEmpty
  | .pydict xs => !xs.isEmpty

/-- `parameters.get(name)`: association-list lookup returning Python `None`
when the key is absent (Python's `dict.get` default). -/
def pyGet (params : List (String × PyValue)) (name : String) : PyValue :=
  match params.lookup name with
  | some v => v
  | none => .pynone

/-- Python's ASCII `\s` class: space, tab, LF, CR, VT, FF — used by
`str.strip()`, `int(str)`'s whitespace tolerance and the regex `\s*`.
(Non-ASCII whitespace is outside the modelled domain.) -/
def pyWsChar (c : Char) : Bool :=
  c = ' ' ∨ c = '\t' ∨ c = '\n' ∨ c = '\r'
    ∨ c = Char.ofNat 11 ∨ c = Char.ofNat 12

/-- `str.strip()` with no argument: remove leading and trailing whitespace.
(Defined on the character list so that it evaluates inside the kernel,
unlike `String.trim`.) -/
def pyStrip (s : String) : String :=
  String.mk (((s.data.dropWhile pyWsChar).reverse.dropWhile pyWsChar).reverse)

/-- `str.lower()` (ASCII case folding). -/
def strLower (s : String) : String := String.mk (s.data.map Char.toLower)

/-- `b.startswith(a)` — literal string-prefix comparison. -/
def strHasPre (a b : String) : Bool := a.data.isPrefixOf b.data

/-- Python `int(s)` on a string: optional surrounding whitespace, an optional
sign, then a nonempty digit run.  (Digit-group underscores and non-ASCII
digits, which CPython also accepts, are outside the modelled domain.) -/
def pyIntOfStr (s : String) : Option Int :=
  let t := (pyStrip s).data
  let core : List Char → Option Int := fun ds =>
    if ds.isEmpty then none
    else if ds.all Char.isDigit then
      some (ds.foldl (fun acc c => acc * 10 + (c.toNat - '0'.toNat)) (0 : Int))
    else none
  match t with
  | '-' :: rest => (core rest).map (fun n => -n)
  | '+' :: rest => core rest
  | _ => core t

/-! ## `tools/registry.py` — data model and the default tool catalog -/

/-- `ParameterType` (registry.py). -/
inductive ParameterType where
  | STRING | INTEGER | BOOLEAN | PATH | ARRAY | OBJECT
  deriving DecidableEq

/-- `ToolParameter` (registry.py).  `default := PyValue.pynone` models the
Python default `None`; `validationRegex := none` models `validation_regex =
None`. -/
structure ToolParameter where
  name : String
  type : ParameterType
  description : String := ""
  required : Bool := true
  default : PyValue := .pynone
  validationRegex : Option String := none
  minValue : Option Int := none
  maxValue : Option Int := none

/-- `Tool` (registry.py). -/
structure Tool where
  name : String
  description : String := ""
  category : String
  parameters : List ToolParameter
  requiresDevice : Bool := true
  requiresPermission : Bool := true
  permissionType : Option String := none
  dangerous : Bool := false

/-- `create_directory` (registry.py, `_initialize_default_tools`). -/
def createDirectoryTool : Tool :=
  { name := "create_directory", category := "file_system",
    parameters :=
      [ { name := "path", type := .PATH },
        { name := "recursive", type := .BOOLEAN, required := false,
          default := .pybool true } ],
    permissionType := some "path" }

/-- `delete_directory` (registry.py). -/
def deleteDirectoryTool : Tool :=
  { name := "delete_directory", category := "file_system",
    parameters :=
      [ { name := "path", type := .PATH },
        { name := "recursive", type := .BOOLEAN, required := false,
          default := .pybool false } ],
    permissionType := some "path", dangerous := true }

/-- `search_files` (registry.py). -/
def searchFilesTool : Tool :=
  { name := "search_files", category := "file_system",
    parameters :=
      [ { name := "path", type := .PATH },
        { name := "pattern", type := .STRING },
        { name := "recursive", type := .BOOLEAN, required := false,
          default := .pybool true } ],
    permissionType := some "path" }

/-- `list_directory` (registry.py). -/
def listDirectoryTool : Tool :=
  { name := "list_directory", category := "file_system",
    parameters :=
      [ { name := "path", type := .PATH },
        { name := "recursive", type := .BOOLEAN, required := false,
          default := .pybool false } ],
    permissionType := some "path" }

/-- `read_text_file` (registry.py). -/
def readTextFileTool : Tool :=
  { name := "read_text_file", category := "file_system",
    parameters := [ { name := "path", type := .PATH } ],
    permissionType := some "path" }

/-- `write_text_file` (registry.py). -/
def writeTextFileTool : Tool :=
  { name := "write_text_file", category := "file_system",
    parameters :=
      [ { name := "path", type := .PATH },
        { name := "content", type := .STRING },
        { name := "append", type := .BOOLEAN, required := false,
          default := .pybool false } ],
    permissionType := some "path" }

/-- `copy_file` (registry.py): its path-typed parameters are named
`source_path` and `destination_path`; there is no parameter named `path`. -/
def copyFileTool : Tool :=
  { name := "copy_file", category := "file_system",
    parameters :=
      [ { name := "source_path", type := .PATH },
        { name := "destination_path", type := .PATH },
        { name := "overwrite", type := .BOOLEAN, required := false,
          default := .pybool false } ],
    permissionType := some "path" }

/-- `move_file` (registry.py): like `copy_file`, no parameter named `path`. -/
def moveFileTool : Tool :=
  { name := "move_file", category := "file_system",
    parameters :=
      [ { name := "source_path", type := .PATH },
        { name := "destination_path", type := .PATH },
        { name := "overwrite", type := .BOOLEAN, required := false,
          default := .pybool false } ],
    permissionType := some "path" }

/-- `delete_file` (registry.py). -/
def deleteFileTool : Tool :=
  { name := "delete_file", category := "file_system",
    parameters :=
      [ { name := "path", type := .PATH },
        { name := "confirm", type := .STRING } ],
    permissionType := some "path", dangerous := true }

/-- `open_app` (registry.py). -/
def openAppTool : Tool :=
  { name := "open_app", category := "application",
    parameters :=
      [ { name := "app_name", type := .STRING },
        { name := "arguments", type := .ARRAY, required := false,
          default := .pylist [] } ],
    permissionType := some "app" }

/-- `close_app` (registry.py). -/
def closeAppTool : Tool :=
  { name := "close_app", category := "application",
    parameters := [ { name := "app_name", type := .STRING } ],
    permissionType := some "app" }

/-- `get_device_info` (registry.py): `requires_permission=False`. -/
def getDeviceInfoTool : Tool :=
  { name := "get_device_info", category := "device",
    parameters :=
      [ { name := "include_hardware", type := .BOOLEAN, required := false,
          default := .pybool true } ],
    requiresPermission := false }

/-- `get_running_processes` (registry.py): no parameters,
`requires_permission=False`. -/
def getRunningProcessesTool : Tool :=
  { name := "get_running_processes", category := "device",
    parameters := [], requiresPermission := false }

/-- The registry contents after `ToolRegistry._initialize_default_tools`,
in registration order. -/
def defaultTools : List Tool :=
  [ createDirectoryTool, deleteDirectoryTool, searchFilesTool,
    listDirectoryTool, readTextFileTool, writeTextFileTool,
    copyFileTool, moveFileTool, deleteFileTool,
    openAppTool, closeAppTool, getDeviceInfoTool, getRunningProcessesTool ]

/-- `ToolRegistry.get(tool_name)`: dict lookup by name.  The router calls it
with `tool_call['tool_name']`, which is an arbitrary JSON value; a Python dict
lookup with a non-string key simply misses (tool names are strings). -/
def registryGet (toolName : PyValue) : Option Tool :=
  match toolName with
  | .pystr s => defaultTools.find? (fun t => t.name = s)
  | _ => none

/-! ## `services/device_service.py` — permission lookups -/

/-- The permission-relevant part of the `Device` model
(`models/device.py` is not under verification; only the three permission
lists are read by the core). -/
structure Device where
  allowedTools : List String
  allowedPaths : List String
  allowedApps : List String

/-- The device table reachable through the SQLAlchemy session:
`get_device(db, device_id)` is a keyed lookup. -/
def DevDB := List (String × Device)

/-- `get_device(db, device_id)` (device_service.py). -/
def getDevice (db : DevDB) (deviceId : String) : Option Device :=
  (List.lookup deviceId db : Option Device)

/-- `check_device_permission(db, device_id, tool_name, permission_type)`
(device_service.py): missing device → `False`; `"tool"` checks
`allowed_tools`, `"app"` checks `allowed_apps`, any other type → `False`. -/
def checkDevicePermission (db : DevDB) (deviceId toolName : String)
    (permissionType : String := "tool") : Bool :=
  match getDevice db deviceId with
  | none => false
  | some device =>
    if permissionType = "tool" then toolName ∈ device.allowedTools
    else if permissionType = "app" then toolName ∈ device.allowedApps
    else false

/-- `check_path_allowed(db, device_id, path)` (device_service.py): literal
string-prefix comparison of `path` against each allowed path. -/
def checkPathAllowed (db : DevDB) (deviceId path : String) : Bool :=
  match getDevice db deviceId with
  | none => false
  | some device =>
    device.allowedPaths.any (fun allowed => strHasPre allowed path)

/-! ## `tools/validator.py` — `ToolValidator` -/

/-- The distinct `ValidationError` raise sites of validator.py, one
constructor per site (the Python code distinguishes them only by message
text):
* `missingRequired` — "Required parameter '…' is missing";
* `typeMismatch` — the "must be a string / an integer / a boolean /
  a path string / an array / an object" messages of `_validate_type`;
* `emptyPath` — "cannot be an empty path";
* `regexMismatch` — "does not match required pattern";
* `rangeMin` / `rangeMax` — "must be at least / at most …";
* `unknownParams` — "Unknown parameters: …";
* `permissionDenied` — the three raise sites of `validate_permissions`. -/
inductive VErr where
  | missingRequired (name : String)
  | typeMismatch (name : String) (expected : ParameterType)
  | emptyPath (name : String)
  | regexMismatch (name : String)
  | rangeMin (name : String) (bound : Int)
  | rangeMax (name : String) (bound : Int)
  | unknownParams (names : List String)
  | permissionDenied (msg : String)

/-- The message carried by the raised `ValidationError` (validator.py
f-strings; for `unknownParams` Python joins a `set`, whose order is
unspecified — here the keys are joined in raw-parameter order). -/
def VErr.message : VErr → String
  | .missingRequired n => "Required parameter \x27" ++ n ++ "\x27 is missing"
  | .typeMismatch n .STRING => "Parameter \x27" ++ n ++ "\x27 must be a string"
  | .typeMismatch n .INTEGER => "Parameter \x27" ++ n ++ "\x27 must be an integer"
  | .typeMismatch n .BOOLEAN => "Parameter \x27" ++ n ++ "\x27 must be a boolean"
  | .typeMismatch n .PATH => "Parameter \x27" ++ n ++ "\x27 must be a path string"
  | .typeMismatch n .ARRAY => "Parameter \x27" ++ n ++ "\x27 must be an array"
  | .typeMismatch n .OBJECT => "Parameter \x27" ++ n ++ "\x27 must be an object"
  | .emptyPath n => "Parameter \x27" ++ n ++ "\x27 cannot be an empty path"
  | .regexMismatch n => "Parameter \x27" ++ n ++ "\x27 does not match required pattern"
  | .rangeMin n b => "Parameter \x27" ++ n ++ "\x27 must be at least " ++ toString b
  | .rangeMax n b => "Parameter \x27" ++ n ++ "\x27 must be at most " ++ toString b
  | .unknownParams ns => "Unknown parameters: " ++ String.intercalate ", " ns
  | .permissionDenied m => m

/-- `ToolValidator._validate_type` (validator.py).  Notable Python facts
mirrored here:
* `isinstance(True, int)` holds, so the INTEGER branch returns a boolean
  value unchanged;
* `int(s)` coerces integer-parseable strings;
* `int(None)` / `int(list)` / `int(dict)` raise `TypeError` → `TypeMismatch`;
* the BOOLEAN branch accepts only `bool` or the listed strings
  (case-insensitively); a plain int is rejected because
  `isinstance(5, bool)` is false. -/
def validateType (paramName : String) (value : PyValue) (pd : ToolParameter) :
    Except VErr PyValue :=
  match pd.type with
  | .STRING =>
    match value with
    | .pystr s => .ok (.pystr s)
    | _ => .error (.typeMismatch paramName .STRING)
  | .INTEGER =>
    match value with
    | .pyint n => .ok (.pyint n)
    | .pybool b => .ok (.pybool b)
    | .pystr s =>
      match pyIntOfStr s with
      | some n => .ok (.pyint n)
      | none => .error (.typeMismatch paramName .INTEGER)
    | _ => .error (.typeMismatch paramName .INTEGER)
  | .BOOLEAN =>
    match value with
    | .pybool b => .ok (.pybool b)
    | .pystr s =>
      if strLower s = "true" ∨ strLower s = "1" ∨ strLower s = "yes" then
        .ok (.pybool true)
      else if strLower s = "false" ∨ strLower s = "0" ∨ strLower s = "no" then
        .ok (.pybool false)
      else .error (.typeMismatch paramName .BOOLEAN)
    | _ => .error (.typeMismatch paramName .BOOLEAN)
  | .PATH =>
    match value with
    | .pystr s =>
      if s = "" ∨ pyStrip s = "" then .error (.emptyPath paramName)
      else .ok (.pystr s)
    | _ => .error (.typeMismatch paramName .PATH)
  | .ARRAY =>
    match value with
    | .pylist xs => .ok (.pylist xs)
    | _ => .error (.typeMismatch paramName .ARRAY)
  | .OBJECT =>
    match value with
    | .pydict xs => .ok (.pydict xs)
    | _ => .error (.typeMismatch paramName .OBJECT)

/-- `ToolValidator._validate_range` (validator.py).  Integer comparison; on a
coerced boolean Python compares `True`/`False` as `1`/`0`.  A value of any
other type at this point would raise `TypeError` in Python; no default tool
declares numeric bounds, and the branch guard below only runs the check on
int-comparable values. -/
def validateRange (paramName : String) (value : Int) (minV maxV : Option Int) :
    Except VErr Unit := do
  match minV with
  | some m => if value < m then throw (.rangeMin paramName m)
  | none => pure ()
  match maxV with
  | some m => if value > m then throw (.rangeMax paramName m)
  | none => pure ()

/-- The int Python would compare in `_validate_range` (bool counts as int);
`none` for values Python could not order against an int. -/
def pyAsRangeInt : PyValue → Option Int
  | .pyint n => some n
  | .pybool b => some (if b then 1 else 0)
  | _ => none

/-- The declared-parameter phase of `ToolValidator.validate_parameters`
(validator.py lines 29–55): iterate the tool's parameters in declaration
order, check requiredness, substitute defaults, validate type / regex /
range, and accumulate the validated map.  `rmatch pat s` is the external
`re.match` (no default tool declares a regex, so theorems quantify over it).
Separated from the unknown-key check so that the two phases can be related
individually; `validateParameters` below glues them exactly as the source
does. -/
def processDeclaredParams (tool : Tool) (parameters : List (String × PyValue))
    (rmatch : String → String → Bool) :
    Except VErr (List (String × PyValue)) :=
  go tool.parameters []
where
  go : List ToolParameter → List (String × PyValue) →
      Except VErr (List (String × PyValue))
    | [], validated => .ok validated
    | pd :: rest, validated => do
      let paramValue := pyGet parameters pd.name
      -- `if param_def.required and param_value is None`
      if pd.required ∧ paramValue.isNone then
        throw (.missingRequired pd.name)
      let paramValue := if paramValue.isNone then pd.default else paramValue
      -- `if param_value is None: continue` (optional parameter left unset)
      if paramValue.isNone then
        go rest validated
      else do
        let paramValue ← validateType pd.name paramValue pd
        -- `if param_def.validation_regex:` (falsy for None and "")
        match pd.validationRegex with
        | some pat =>
          if pat ≠ "" then
            -- `re.match(pattern, value)`; `value` is a string whenever a
            -- regex is declared on a string-typed parameter (the only case
            -- reachable from the default catalog, which declares none).
            match paramValue with
            | .pystr s => if !(rmatch pat s) then throw (.regexMismatch pd.name)
            | _ => pure ()
          else pure ()
        | none => pure ()
        -- `if param_def.min_value is not None or param_def.max_value is not None`
        if pd.minValue.isSome ∨ pd.maxValue.isSome then
          match pyAsRangeInt paramValue with
          | some n => validateRange pd.name n pd.minValue pd.maxValue
          | none => pure ()
        go rest (validated ++ [(pd.name, paramValue)])

/-- The raw-parameter keys not declared on the tool
(`set(parameters.keys()) - {p.name for p in tool.parameters}`),
in raw-parameter order (Python's set order is unspecified). -/
def unknownKeysOf (tool : Tool) (parameters : List (String × PyValue)) :
    List String :=
  (parameters.map Prod.fst).filter
    (fun k => !(tool.parameters.map ToolParameter.name).contains k)

/-- `ToolValidator.validate_parameters` (validator.py): the declared-parameter
phase followed by the closed-schema check raising `Unknown parameters: …`. -/
def validateParameters (tool : Tool) (parameters : List (String × PyValue))
    (rmatch : String → String → Bool) :
    Except VErr (List (String × PyValue)) := do
  let validated ← processDeclaredParams tool parameters rmatch
  if unknownKeysOf tool parameters ≠ [] then
    throw (.unknownParams (unknownKeysOf tool parameters))
  .ok validated

/-- `ToolValidator.validate_permissions` (validator.py lines 126–154).
Dispatches on `permission_type`; the `"path"` branch reads
`parameters.get("path")` and skips the lookup entirely when that value is
falsy (absent key, `None`, or empty string); the `"app"` branch does the same
with `parameters.get("app_name")`.  Non-string truthy values cannot reach the
string-consuming checks from `validate_tool_request` (path/app parameters are
validated strings); they are mapped to the no-check outcome here. -/
def validatePermissions (db : DevDB) (deviceId : String) (tool : Tool)
    (parameters : List (String × PyValue)) : Except VErr Unit :=
  if !tool.requiresPermission then .ok ()
  else match tool.permissionType with
  | some "tool" =>
    if !checkDevicePermission db deviceId tool.name then
      .error (.permissionDenied
        ("Device \x27" ++ deviceId ++ "\x27 does not have permission to use tool \x27"
          ++ tool.name ++ "\x27"))
    else .ok ()
  | some "path" =>
    match pyGet parameters "path" with
    | .pystr s =>
      if s ≠ "" ∧ !checkPathAllowed db deviceId s then
        .error (.permissionDenied
          ("Device \x27" ++ deviceId ++ "\x27 does not have permission to access path \x27"
            ++ s ++ "\x27"))
      else .ok ()
    | _ => .ok ()
  | some "app" =>
    match pyGet parameters "app_name" with
    | .pystr s =>
      if s ≠ "" ∧ !checkDevicePermission db deviceId s "app" then
        .error (.permissionDenied
          ("Device \x27" ++ deviceId ++ "\x27 does not have permission to access app \x27"
            ++ s ++ "\x27"))
      else .ok ()
    | _ => .ok ()
  | _ => .ok ()

/-- `ToolValidator.validate_tool_request` (validator.py): parameter
validation followed by the permission check on the validated map. -/
def validateToolRequest (db : DevDB) (deviceId : String) (tool : Tool)
    (parameters : List (String × PyValue))
    (rmatch : String → String → Bool) :
    Except VErr (List (String × PyValue)) := do
  let validatedParams ← validateParameters tool parameters rmatch
  let _ ← validatePermissions db deviceId tool validatedParams
  .ok validatedParams

/-! ## `config.py` — constants used by the core -/

/-- `CONVERSATION_HISTORY_LIMIT = 20` (config.py). -/
def CONVERSATION_HISTORY_LIMIT : Nat := 20

/-- `MAX_TOOL_ITERATIONS = 5` (config.py). -/
def MAX_TOOL_ITERATIONS : Nat := 5

/-! ## `services/tool_execution_service.py` and `tools/router.py` -/

/-- The `ToolExecution` row as the router populates it: created with
`success = None` (pending), `error_message` unset; ids are the
database-assigned autoincrement keys, modelled as `log.length + 1` (CPython's
SQLite ids start at 1, which also matches the router's truthiness test on
`execution_id`). -/
structure ExecRecord where
  id : Nat
  deviceId : String
  toolName : String
  parameters : List (String × PyValue)
  success : Option Bool
  errorMessage : Option String := none

/-- `log_tool_execution(db, execution_data)` (tool_execution_service.py):
insert one row and return it with its fresh id. -/
def logToolExecution (log : List ExecRecord) (deviceId toolName : String)
    (parameters : List (String × PyValue)) : ExecRecord × List ExecRecord :=
  let record : ExecRecord :=
    { id := log.length + 1, deviceId := deviceId, toolName := toolName,
      parameters := parameters, success := none }
  (record, log ++ [record])

/-- The router's exception handlers: `get_tool_execution` by id, then
`success = False`, `error_message = str(e)`, commit. -/
def markExecutionFailed (log : List ExecRecord) (executionId : Nat)
    (errorMessage : String) : List ExecRecord :=
  log.map (fun r =>
    if r.id = executionId then
      { r with success := some false, errorMessage := some errorMessage }
    else r)

/-- The dict `ToolRouter.execute_tool` returns: `{"success", "execution_id"?,
"error"?, "message"}`. -/
structure RouterResult where
  success : Bool
  executionId : Option Nat := none
  error : Option String := none
  message : String

/-- Python `str()` as used in the router's f-string `f"Tool '{tool_name}' not
found"`; the non-string renderings are never inspected by a claim (tool names
produced by the extractor that reach a message are strings). -/
def pyFStr : PyValue → String
  | .pystr s => s
  | .pynone => "None"
  | .pybool true => "True"
  | .pybool false => "False"
  | .pyint n => toString n
  | .pylist _ => "[...]"
  | .pydict _ => "\x7b...\x7d"

/-- `ToolRouter.execute_tool` (router.py lines 22–117).
Inputs beyond the call's own arguments:
* `sendOk` — the boolean returned by the awaited transport send-function
  (`websocket_send_func`, i.e. `send_command_to_device`);
* `rmatch` — the external `re.match` used by the validator;
* `log` — the execution table before the call.
Returns the result dict and the execution table after the call.
Control flow mirrored from the source:
* unknown tool → `raise ValidationError` before any record exists → the
  `except ValidationError` handler returns a `validation_error` result and,
  as `execution_id` is `None`, updates nothing;
* validation failure → same handler, still before any record exists;
* non-dict `parameters` → `parameters.get` raises `AttributeError` inside
  validation, before any record exists; `except Exception` returns an
  `execution_error` result;
* after validation, exactly one record is inserted; a failed send raises
  `Exception`, whose handler marks that record failed and returns an
  `execution_error` result; a successful send returns success immediately. -/
def executeTool (db : DevDB) (deviceId : String) (toolName : PyValue)
    (parameters : PyValue) (sendOk : Bool)
    (rmatch : String → String → Bool) (log : List ExecRecord) :
    RouterResult × List ExecRecord :=
  match registryGet toolName with
  | none =>
    ({ success := false, error := some "validation_error",
       message := "Tool \x27" ++ pyFStr toolName ++ "\x27 not found" }, log)
  | some tool =>
    match parameters with
    | .pydict rawParams =>
      match validateToolRequest db deviceId tool rawParams rmatch with
      | .error e =>
        ({ success := false, error := some "validation_error",
           message := e.message }, log)
      | .ok validatedParams =>
        -- `log_tool_execution` stores the raw `tool_name` argument, which at
        -- this point is the string equal to `tool.name` (the registry lookup
        -- matched it).
        let (record, log) :=
          logToolExecution log deviceId tool.name validatedParams
        let sendFailMsg :=
          "Failed to send command to device \x27" ++ deviceId ++ "\x27"
        if sendOk then
          ({ success := true, executionId := some record.id,
             message := "Tool \x27" ++ tool.name
               ++ "\x27 execution started on device \x27" ++ deviceId ++ "\x27" },
           log)
        else
          ({ success := false, error := some "execution_error",
             message := sendFailMsg },
           markExecutionFailed log record.id sendFailMsg)
    | _ =>
      ({ success := false, error := some "execution_error",
         message := "\x27" ++ pyFStr parameters
           ++ "\x27 object has no attribute \x27get\x27" }, log)

/-! ## `main.py` — conversation store -/

/-- One conversation message `{"role": ..., "content": ...}`. -/
structure Msg where
  role : String
  content : String
  deriving DecidableEq

/-- `add_message_to_conversation(session_id, role, content)` (main.py lines
300–307), acting on one session's message list: append, then, when the list
exceeds `CONVERSATION_HISTORY_LIMIT + 1` entries, rebuild it as
`[conversation[0]] + conversation[-CONVERSATION_HISTORY_LIMIT:]`.
(`conversation[0]` of the nonempty post-append list is `take 1`;
`conversation[-LIMIT:]` is `drop (length - LIMIT)`.) -/
def addMessageToConversation (conversation : List Msg) (role content : String) :
    List Msg :=
  let conversation := conversation ++ [⟨role, content⟩]
  if conversation.length > CONVERSATION_HISTORY_LIMIT + 1 then
    conversation.take 1
      ++ conversation.drop (conversation.length - CONVERSATION_HISTORY_LIMIT)
  else conversation

/-! ## `tools/llm_integration.py` — JSON and the tool-call extractor

The extractor feeds candidate substrings of the LLM text to `json.loads`.
`Json` and the fueled recursive-descent parser below model `json.loads` on
the modelled domain (numbers restricted to integer literals; see the module
docstring).  A parse returns the value and the unconsumed remainder; a
successful `json.loads` additionally requires the remainder to be whitespace
(Python's "Extra data" error). -/

/-- JSON values as returned by `json.loads` (integer numerals only). -/
inductive Json where
  | jnull
  | jbool (b : Bool)
  | jint (n : Int)
  | jstr (s : String)
  | jarr (xs : List Json)
  | jobj (fs : List (String × Json))

/-- JSON structural whitespace (RFC 8259: space, tab, LF, CR). -/
def jsonWsChar (c : Char) : Bool :=
  c = ' ' ∨ c = '\t' ∨ c = '\n' ∨ c = '\r'

/-- Drop leading JSON whitespace. -/
def skipJsonWs : List Char → List Char
  | c :: rest => if jsonWsChar c then skipJsonWs rest else c :: rest
  | [] => []

/-- Decode one hex digit. -/
def hexVal (c : Char) : Option Nat :=
  if '0' ≤ c ∧ c ≤ '9' then some (c.toNat - '0'.toNat)
  else if 'a' ≤ c ∧ c ≤ 'f' then some (c.toNat - 'a'.toNat + 10)
  else if 'A' ≤ c ∧ c ≤ 'F' then some (c.toNat - 'A'.toNat + 10)
  else none

/-- Body of a JSON string after the opening quote: literal characters (raw
control characters rejected, as with `json.loads`' default `strict=True`) and
the escapes `\" \\ \/ \b \f \n \r \t \uXXXX`. -/
def parseStringBody : Nat → List Char → List Char → Option (String × List Char)
  | 0, _, _ => none
  | _ + 1, acc, '"' :: rest => some (String.mk acc.reverse, rest)
  | fuel + 1, acc, '\\' :: e :: rest =>
    match e with
    | '"' => parseStringBody fuel ('"' :: acc) rest
    | '\\' => parseStringBody fuel ('\\' :: acc) rest
    | '/' => parseStringBody fuel ('/' :: acc) rest
    | 'b' => parseStringBody fuel (Char.ofNat 8 :: acc) rest
    | 'f' => parseStringBody fuel (Char.ofNat 12 :: acc) rest
    | 'n' => parseStringBody fuel ('\n' :: acc) rest
    | 'r' => parseStringBody fuel ('\r' :: acc) rest
    | 't' => parseStringBody fuel ('\t' :: acc) rest
    | 'u' =>
      match rest with
      | h1 :: h2 :: h3 :: h4 :: rest2 =>
        match hexVal h1, hexVal h2, hexVal h3, hexVal h4 with
        | some a, some b, some c, some d =>
          parseStringBody fuel
            (Char.ofNat (((a * 16 + b) * 16 + c) * 16 + d) :: acc) rest2
        | _, _, _, _ => none
      | _ => none
    | _ => none
  | fuel + 1, acc, c :: rest =>
    if c.toNat < 32 then none else parseStringBody fuel (c :: acc) rest
  | _ + 1, _, [] => none

/-- A JSON number at the head of the input (integer literals only; a
fractional or exponent part is outside the modelled domain and makes the
candidate unparseable).  JSON forbids leading zeros. -/
def parseJsonInt (cs : List Char) : Option (Json × List Char) :=
  let (neg, cs1) :=
    match cs with
    | '-' :: r => (true, r)
    | _ => (false, cs)
  let digits := cs1.takeWhile Char.isDigit
  let rest := cs1.dropWhile Char.isDigit
  if digits.isEmpty then none
  else if digits.length > 1 ∧ digits.head? = some '0' then none
  else
    let bad : Bool :=
      match rest with
      | c :: _ => c = '.' || c = 'e' || c = 'E'
      | [] => false
    if bad then none
    else
      let v : Int := digits.foldl (fun acc c => acc * 10 + (c.toNat - '0'.toNat)) 0
      some (.jint (if neg then -v else v), rest)

mutual

/-- One JSON value at the head of the input, leading whitespace allowed. -/
def parseJsonValue : Nat → List Char → Option (Json × List Char)
  | 0, _ => none
  | fuel + 1, cs =>
    match skipJsonWs cs with
    | '"' :: rest =>
      match parseStringBody fuel [] rest with
      | some (s, rest2) => some (.jstr s, rest2)
      | none => none
    | '{' :: rest => parseJsonObjFields fuel (skipJsonWs rest) []
    | '[' :: rest => parseJsonArrElems fuel (skipJsonWs rest) []
    | 't' :: 'r' :: 'u' :: 'e' :: rest => some (.jbool true, rest)
    | 'f' :: 'a' :: 'l' :: 's' :: 'e' :: rest => some (.jbool false, rest)
    | 'n' :: 'u' :: 'l' :: 'l' :: rest => some (.jnull, rest)
    | c :: rest =>
      if c = '-' ∨ c.isDigit then parseJsonInt (c :: rest) else none
    | [] => none

/-- Object members after `{` (or after a comma), accumulated in text order. -/
def parseJsonObjFields : Nat → List Char → List (String × Json) →
    Option (Json × List Char)
  | 0, _, _ => none
  | _ + 1, '}' :: rest, [] => some (.jobj [], rest)
  | fuel + 1, cs, acc =>
    match cs with
    | '"' :: rest =>
      match parseStringBody fuel [] rest with
      | some (key, rest2) =>
        match skipJsonWs rest2 with
        | ':' :: rest3 =>
          match parseJsonValue fuel rest3 with
          | some (v, rest4) =>
            match skipJsonWs rest4 with
            | ',' :: rest5 =>
              parseJsonObjFields fuel (skipJsonWs rest5) (acc ++ [(key, v)])
            | '}' :: rest5 => some (.jobj (acc ++ [(key, v)]), rest5)
            | _ => none
          | none => none
        | _ => none
      | none => none
    | _ => none

/-- Array elements after `[` (or after a comma). -/
def parseJsonArrElems : Nat → List Char → List Json → Option (Json × List Char)
  | 0, _, _ => none
  | _ + 1, ']' :: rest, [] => some (.jarr [], rest)
  | fuel + 1, cs, acc =>
    match parseJsonValue fuel cs with
    | some (v, rest) =>
      match skipJsonWs rest with
      | ',' :: rest2 => parseJsonArrElems fuel (skipJsonWs rest2) (acc ++ [v])
      | ']' :: rest2 => some (.jarr (acc ++ [v]), rest2)
      | _ => none
    | none => none

end

/-- `json.loads(s)`: one value, then only trailing whitespace ("Extra data"
otherwise). -/
def jsonLoads (s : String) : Option Json :=
  match parseJsonValue (s.data.length + 1) s.data with
  | some (v, rest) => if (skipJsonWs rest).isEmpty then some v else none
  | none => none

/-- Python's substring test `pat in s`. -/
def subIn (pat s : String) : Bool :=
  go s.data
where
  go : List Char → Bool
    | [] => pat.data.isPrefixOf ([] : List Char)
    | c :: rest => pat.data.isPrefixOf (c :: rest) || go rest

/-- Lookup in a parsed JSON object, as the resulting Python dict would
resolve the key (duplicate keys: last occurrence wins). -/
def jobjGet (fs : List (String × Json)) (key : String) : Option Json :=
  (fs.filter (fun p => p.1 = key)).getLast?.map Prod.snd

/-- Insert-or-update on a modelled Python dict: an existing key keeps its
position and takes the new value, a new key is appended. -/
def pyDictSet (xs : List (String × PyValue)) (k : String) (v : PyValue) :
    List (String × PyValue) :=
  if (xs.map Prod.fst).contains k then
    xs.map (fun p => if p.1 = k then (k, v) else p)
  else xs ++ [(k, v)]

mutual

/-- The Python value `json.loads` builds from a parsed JSON value. -/
def jsonToPy : Json → PyValue
  | .jnull => .pynone
  | .jbool b => .pybool b
  | .jint n => .pyint n
  | .jstr s => .pystr s
  | .jarr xs => .pylist (jsonListToPy xs)
  | .jobj fs =>
    .pydict ((jsonFieldsToPy fs).foldl (fun acc p => pyDictSet acc p.1 p.2) [])

/-- Elementwise conversion of array elements. -/
def jsonListToPy : List Json → List PyValue
  | [] => []
  | j :: rest => jsonToPy j :: jsonListToPy rest

/-- Elementwise conversion of object fields (dict collapsing applied by
`jsonToPy` afterwards). -/
def jsonFieldsToPy : List (String × Json) → List (String × PyValue)
  | [] => []
  | (k, j) :: rest => (k, jsonToPy j) :: jsonFieldsToPy rest

end

/-- The dict `parse_tool_call_from_response` returns:
`{"tool_name": ..., "parameters": ...}` (both taken verbatim from the
accepted JSON object). -/
structure ToolCall where
  toolName : PyValue
  parameters : PyValue

/-- Python's membership test `key in value` on a value obtained from
`json.loads`: key lookup on a dict, substring test on a string, element
equality on a list (a string compares equal only to an equal string), and a
`TypeError` (modelled as `none`) on `None`, booleans and numbers. -/
def pyInTest (value : Json) (key : String) : Option Bool :=
  match value with
  | .jobj fs => some ((fs.map Prod.fst).contains key)
  | .jstr s => some (subIn key s)
  | .jarr xs =>
    some (xs.any (fun j => match j with | .jstr s2 => s2 = key | _ => false))
  | _ => none

/-- The outcome of testing one successfully parsed candidate, following
`parse_tool_call_from_response` statement by statement: `"tool_call" in
data`, then `tool_call = data["tool_call"]`, then `"tool_name" in tool_call
and "parameters" in tool_call` (left to right, short-circuit), then the
indexing `tool_call["tool_name"]` / `tool_call["parameters"]`.  `accepted`
is a returned call; `rejected` is a quietly failed test (the scan goes on to
the next candidate); `typeError` is a raised `TypeError` — from `in` on a
`None`/boolean/number `tool_call`, or from indexing a string or list
`tool_call` with a string key after its membership tests passed. -/
inductive CandidateResult where
  | accepted (tc : ToolCall)
  | rejected
  | typeError

/-- Test one parse-ok candidate (see `CandidateResult`).  A candidate always
parses to an object — both branches only submit substrings that start with
`\x7b` — but the non-object cases of `"tool_call" in data` and
`data["tool_call"]` are modelled all the same. -/
def checkCandidate (data : Json) : CandidateResult :=
  match pyInTest data "tool_call" with
  | none => .typeError
  | some false => .rejected
  | some true =>
    match data with
    | .jobj fs =>
      match jobjGet fs "tool_call" with
      | none => .rejected
      | some toolCallVal =>
        match pyInTest toolCallVal "tool_name" with
        | none => .typeError
        | some false => .rejected
        | some true =>
          match pyInTest toolCallVal "parameters" with
          | none => .typeError
          | some false => .rejected
          | some true =>
            match toolCallVal with
            | .jobj tfs =>
              match jobjGet tfs "tool_name", jobjGet tfs "parameters" with
              | some tn, some ps => .accepted ⟨jsonToPy tn, jsonToPy ps⟩
              | _, _ => .rejected
            | _ => .typeError
    | _ => .typeError

/-- How a call to `parse_tool_call_from_response` ends: with a call, with
`None`, or by raising an uncaught `TypeError` (which then propagates out of
`extract_text_and_tool_call` and kills the calling task). -/
inductive ExtractOutcome where
  | found (tc : ToolCall)
  | nofind
  | crash

/-- Length of the leading `\s*` run. -/
def pyWsCount (cs : List Char) : Nat := (cs.takeWhile pyWsChar).length

/-- The opening fence literal of the pattern. -/
def fenceTag : List Char := "```json".data

/-- The closing fence literal of the pattern. -/
def closeFence : List Char := "```".data

/-- The lazy `\{.*?\}` group end: index of the first `}` that is followed by
`\s*` and the closing fence (the regex engine grows the lazy middle until the
tail matches). -/
def lazyEndAux : List Char → Option Nat
  | [] => none
  | c :: rest =>
    if c = '}' ∧ closeFence.isPrefixOf (rest.drop (pyWsCount rest)) then some 0
    else (lazyEndAux rest).map (· + 1)

/-- `re.findall(r'```json\s*(\{.*?\})\s*```', response, re.DOTALL)`:
the captured groups, left to right, each search resuming after the previous
match.  A position where the opening fence matches but the rest of the
pattern cannot is skipped, as the regex engine's start position advances. -/
def findFenced : Nat → List Char → List (List Char)
  | 0, _ => []
  | fuel + 1, cs =>
    match cs with
    | [] => []
    | _ :: restTail =>
      if fenceTag.isPrefixOf cs then
        let afterTag := cs.drop fenceTag.length
        let body := afterTag.drop (pyWsCount afterTag)
        match body with
        | '{' :: _ =>
          match lazyEndAux body with
          | some k =>
            let group := body.take (k + 1)
            let afterGroup := body.drop (k + 1)
            let afterFence := afterGroup.drop (pyWsCount afterGroup + 3)
            group :: findFenced fuel afterFence
          | none => findFenced fuel restTail
        | _ => findFenced fuel restTail
      else findFenced fuel restTail

/-- The fenced branch of `parse_tool_call_from_response`: the first captured
group that parses and passes the acceptance test is returned; a group that
fails to parse (`except json.JSONDecodeError: continue`) or quietly fails a
test is skipped; a `TypeError` from a candidate is caught by nothing in this
branch, so it aborts the whole call (`crash`). -/
def tryFencedGroups : List (List Char) → ExtractOutcome
  | [] => .nofind
  | g :: rest =>
    match jsonLoads (String.mk g) with
    | some data =>
      match checkCandidate data with
      | .accepted tc => .found tc
      | .rejected => tryFencedGroups rest
      | .typeError => .crash
    | none => tryFencedGroups rest

/-- The brace-depth scan of `parse_tool_call_from_response` (lines 190–219):
track depth, remember where a top-level `\x7b` opened, and on each balanced
close test the candidate (substring guard, parse with `except
json.JSONDecodeError: pass`, acceptance); a quiet failure resets the start
marker and scanning continues.  A `TypeError` from a candidate, however, is
only caught by the `except Exception` wrapping the whole loop: the entire
scan aborts — later candidates are never tried — and the function falls
through to `return None`. -/
def scanToolCall (full : List Char) : Option ToolCall :=
  go full 0 0 none
where
  go : List Char → Nat → Int → Option Nat → Option ToolCall
    | [], _, _, _ => none
    | c :: rest, i, depth, jstart =>
      if c = '{' then
        go rest (i + 1) (depth + 1) (if depth = 0 then some i else jstart)
      else if c = '}' then
        let depth := depth - 1
        if depth = 0 then
          match jstart with
          | some s =>
            let jsonStr := String.mk ((full.drop s).take (i + 1 - s))
            if subIn "tool_call" jsonStr then
              match jsonLoads jsonStr with
              | some data =>
                match checkCandidate data with
                | .accepted tc => some tc
                | .rejected => go rest (i + 1) depth none
                | .typeError => none
              | none => go rest (i + 1) depth none
            else go rest (i + 1) depth none
          | none => go rest (i + 1) depth none
        else go rest (i + 1) depth jstart
      else go rest (i + 1) depth jstart

/-- `parse_tool_call_from_response(response)` (llm_integration.py lines
162–221): fenced candidates first; if none qualifies quietly, fall through
to the brace-depth scan.  A `TypeError` in the fenced branch is uncaught
(`crash`); one in the scan is swallowed by its `except Exception` and the
function returns `None`, indistinguishable from finding nothing. -/
def parseToolCallFromResponse (response : String) : ExtractOutcome :=
  match tryFencedGroups (findFenced (response.data.length + 1) response.data) with
  | .found tc => .found tc
  | .crash => .crash
  | .nofind =>
    match scanToolCall response.data with
    | some tc => .found tc
    | none => .nofind

/-- The character scan `extract_text_and_tool_call` builds its cleaned text
with (llm_integration.py lines 240–273), ported branch for branch.  Each
character is examined only when its index has passed `skip_until`; a balanced
`{...}` span that contains `"tool_call"` and parses sets
`skip_until = i + 1` and withholds the character at `i` (the closing brace)
— the span's earlier characters have already been emitted by the preceding
iterations. -/
def cleanScan (full : List Char) : List Char :=
  go full 0 0 none (-1) []
where
  go : List Char → Nat → Int → Option Nat → Int → List Char → List Char
    | [], _, _, _, _, acc => acc.reverse
    | c :: rest, i, depth, jstart, skipU, acc =>
      if (i : Int) < skipU then
        go rest (i + 1) depth jstart skipU acc
      else if c = '{' then
        go rest (i + 1) (depth + 1) (if depth = 0 then some i else jstart)
          skipU (c :: acc)
      else if c = '}' then
        let depth := depth - 1
        if depth = 0 then
          match jstart with
          | some s =>
            let jsonStr := String.mk ((full.drop s).take (i + 1 - s))
            if subIn "tool_call" jsonStr ∧ (jsonLoads jsonStr).isSome then
              go rest (i + 1) depth none (Int.ofNat (i + 1)) acc
            else go rest (i + 1) depth none skipU (c :: acc)
          | none => go rest (i + 1) depth none skipU (c :: acc)
        else go rest (i + 1) depth jstart skipU (c :: acc)
      else go rest (i + 1) depth jstart skipU (c :: acc)

/-- `extract_text_and_tool_call(response)` (llm_integration.py lines
224–276); `none` models the uncaught `TypeError` propagating out of
`parse_tool_call_from_response` (this function catches nothing).  When a
call is found, the source first computes
`re.sub(r'```json\s*\{.*?\}\s*```', '', response, flags=re.DOTALL)` into
`text`, but that value is dead: the next statements rebuild `text` from
the character scan over the original `response` and `.strip()` it.  Only the
effective computation is modelled.  (The cleaning scan itself cannot raise:
its inner `try` guards only `json.loads`, which it merely tests for
validity.) -/
def extractTextAndToolCall (response : String) :
    Option (String × Option ToolCall) :=
  match parseToolCallFromResponse response with
  | .crash => none
  | .found tc => some (pyStrip (String.mk (cleanScan response.data)), some tc)
  | .nofind => some (response, none)

/-! ## `tools/llm_integration.py` — tool-result formatting -/

/-- `os_version.split(".")` — Python `str.split` with a one-character
separator (an empty string splits to `[""]`). -/
def splitOnDots (s : String) : List String :=
  go s.data []
where
  go : List Char → List Char → List String
    | [], acc => [String.mk acc.reverse]
    | c :: rest, acc =>
      if c = '.' then String.mk acc.reverse :: go rest []
      else go rest (c :: acc)

/-- `_parse_windows_build(os_version)` (llm_integration.py): the last
dot-separated component through `int()`. -/
def parseWindowsBuild (osVersion : String) : Option Int :=
  match (splitOnDots osVersion).getLast? with
  | some last => pyIntOfStr last
  | none => none

/-- `_windows_friendly_name(os_version)` (llm_integration.py). -/
def windowsFriendlyName (osVersion : String) : String :=
  match parseWindowsBuild osVersion with
  | none => "Windows (version unknown)"
  | some build =>
    if build ≥ 22000 then "Windows 11 (build " ++ toString build ++ ")"
    else "Windows 10 (build " ++ toString build ++ ")"

/-- Minimal JSON string escaping for the serializer below. -/
def jsonEscape (s : String) : String :=
  s.data.foldl
    (fun acc c =>
      if c = '"' then acc ++ "\\\""
      else if c = '\\' then acc ++ "\\\\"
      else if c = '\n' then acc ++ "\\n"
      else if c = '\t' then acc ++ "\\t"
      else if c = '\r' then acc ++ "\\r"
      else acc.push c)
    ""

mutual

/-- `json.dumps(result, indent=2)` as used in
`format_tool_result_for_llm`, abstracted to a compact rendering: the
pretty-printing whitespace of `indent=2` is not reproduced (no claim
inspects this text; it is only embedded in conversation messages). -/
def pyDumps : PyValue → String
  | .pynone => "null"
  | .pybool true => "true"
  | .pybool false => "false"
  | .pyint n => toString n
  | .pystr s => "\"" ++ jsonEscape s ++ "\""
  | .pylist xs => "[" ++ pyDumpsList xs ++ "]"
  | .pydict fs => "\x7b" ++ pyDumpsFields fs ++ "\x7d"

/-- Comma-joined array elements. -/
def pyDumpsList : List PyValue → String
  | [] => ""
  | [x] => pyDumps x
  | x :: rest => pyDumps x ++ ", " ++ pyDumpsList rest

/-- Comma-joined object members. -/
def pyDumpsFields : List (String × PyValue) → String
  | [] => ""
  | [(k, v)] => "\"" ++ jsonEscape k ++ "\": " ++ pyDumps v
  | (k, v) :: rest =>
    "\"" ++ jsonEscape k ++ "\": " ++ pyDumps v ++ ", " ++ pyDumpsFields rest

end

/-- The `get_device_info` enrichment in `format_tool_result_for_llm`
(llm_integration.py lines 287–291): when the result is a dict whose `info`
member is a nonempty dict with string `os_name` / `os_version` and a Windows
`os_name`, add `os_friendly_name` to `info`. -/
def enrichDeviceInfo (result : PyValue) : PyValue :=
  match result with
  | .pydict fields =>
    match pyGet fields "info" with
    | .pydict info =>
      if info.isEmpty then result
      else
        match pyGet info "os_name", pyGet info "os_version" with
        | .pystr osName, .pystr osVersion =>
          if strHasPre "windows" (strLower osName) then
            .pydict (pyDictSet fields "info"
              (.pydict (pyDictSet info "os_friendly_name"
                (.pystr (windowsFriendlyName osVersion)))))
          else result
        | _, _ => result
    | _ => result
  | _ => result

/-- `format_tool_result_for_llm(tool_name, success, result, error)`
(llm_integration.py lines 279–300).  `result` and `error` keep their dynamic
Python type; the `if result:` / `if error:` guards are truthiness tests. -/
def formatToolResultForLLM (toolName : String) (success : Bool)
    (result : PyValue) (error : PyValue) : String :=
  if success then
    let result := if toolName = "get_device_info" then enrichDeviceInfo result
                  else result
    let resultText := "Tool \x27" ++ toolName ++ "\x27 executed successfully.\n"
    if pyTruthy result then resultText ++ "Result: " ++ pyDumps result
    else resultText
  else
    let errorText := "Tool \x27" ++ toolName ++ "\x27 failed.\n"
    if pyTruthy error then errorText ++ "Error: " ++ pyFStr error
    else errorText

/-! ## `main.py` — result correlation (`tool_executions`), tool-call
processing and the agent loop

The shared state of one `handle_llm_request` task is modelled explicitly;
the WebSocket replies the task sends are collected in an output list.  Only
the non-streaming mode (`stream=False`, via `call_llm`) is modelled; the
streaming branch differs only in chunked delivery of the same text. -/

/-- A terminal tool result, after the gets `_process_tool_call` applies to
`tool_executions[request_id]["result"]`: `success` (devices send a JSON
boolean; `event.get("success", False)` defaults to `False`), `result`
(`event.get("result")`, default `None`), `error` (`event.get("error")`). -/
structure ToolRes where
  success : Bool
  result : PyValue := .pynone
  error : PyValue := .pynone

/-- The synthesized timeout result of `_process_tool_call` (main.py lines
137–140): `{"success": False, "error": "Tool execution timeout"}` — no
`result` key, so `actual_result.get('result')` is `None`. -/
def timeoutResult : ToolRes :=
  { success := false, error := .pystr "Tool execution timeout" }

/-- The fixed continuation prompt `_process_tool_call` returns with
`should_continue = True`. -/
def continuationPrompt : String :=
  "Please provide a natural language response based on the tool result above."

/-- The synthesized apology of `handle_llm_request` (main.py lines 245–248). -/
def apologyMessage : String :=
  "I apologize, but I\x27ve reached the maximum number of tool execution attempts. Please try rephrasing your request."

/-- The WebSocket messages `handle_llm_request` / `_process_tool_call` send
in non-streaming mode. -/
inductive OutMsg where
  | errorOut (error : String)
  | llmResponse (response : String)
  deriving DecidableEq

/-- The external world one `handle_llm_request` task interacts with, as
oracles: `llm n` is the text the LLM client returns for the task's `n`-th
call (indexed from 0); `delivery id` is the device reply correlated to
execution `id` if one arrives within `TOOL_EXECUTION_TIMEOUT`, else `none`
(timeout); `sendOk id` is the boolean the transport send returns for the
dispatch that created execution `id`; `deviceId` and `db` are the session's
device and the device table; `rmatch` is `re.match`. -/
structure LoopEnv where
  llm : Nat → String
  delivery : Nat → Option ToolRes
  sendOk : Nat → Bool
  deviceId : Option String
  db : DevDB
  rmatch : String → String → Bool

/-- The mutable state a `handle_llm_request` task touches: sent messages,
LLM call count, the session's conversation, the execution table, plus a
marker for the task having died of an uncaught exception (after which it
executes nothing further — in particular, the post-loop apology check is
never reached). -/
structure LoopState where
  outputs : List OutMsg := []
  llmCalls : Nat := 0
  conv : List Msg
  execLog : List ExecRecord := []
  crashed : Bool := false

/-- The failure-feedback block `_process_tool_call` repeats at lines 100–107
and 113–120: format the failure with `format_tool_result_for_llm`, append it
to the conversation as a `[TOOL RESULT]` user message, and continue the loop
with the fixed continuation prompt. -/
def toolFailureContinue (toolCall : ToolCall) (st : LoopState)
    (errorMessage : String) : Bool × Option String × LoopState :=
  let t := formatToolResultForLLM (pyFStr toolCall.toolName) false
    .pynone (.pystr errorMessage)
  (true, some continuationPrompt,
   { st with
     conv := addMessageToConversation st.conv "user" ("[TOOL RESULT]\n" ++ t) })

/-- `_process_tool_call(websocket, tool_call, device_id, session_id, db)`
(main.py lines 64–156), returning `(should_continue, next_prompt)` plus the
updated state.  The waiter registered in `tool_executions` for the awaited
execution id is created and, in the `finally` block, deleted within this
same call, so it leaves no trace in the state; the correlation semantics of
that map are modelled separately by `corrStep` below. -/
def processToolCall (env : LoopEnv) (toolCall : ToolCall) (st : LoopState) :
    Bool × Option String × LoopState :=
  match env.deviceId with
  | none =>
    (false, none,
     { st with outputs := st.outputs ++ [.errorOut "Device not registered"] })
  | some deviceId =>
    let (result, log2) :=
      executeTool env.db deviceId toolCall.toolName toolCall.parameters
        (env.sendOk (st.execLog.length + 1)) env.rmatch st.execLog
    let st := { st with execLog := log2 }
    let failContinue := toolFailureContinue toolCall st
    if !result.success then
      -- `result.get("message") or result.get("error") or "Tool execution failed"`
      let errorMessage :=
        if result.message ≠ "" then result.message
        else match result.error with
          | some e => if e ≠ "" then e else "Tool execution failed"
          | none => "Tool execution failed"
      failContinue errorMessage
    else
      match result.executionId with
      | none => failContinue "No execution ID returned from router"
      | some requestId =>
        -- `if not request_id:` — Python truthiness; database ids start at 1,
        -- but the guard is mirrored for id 0 all the same.
        if requestId = 0 then
          failContinue "No execution ID returned from router"
        else
          let actual :=
            match env.delivery requestId with
            | some r => r
            | none => timeoutResult
          let t := formatToolResultForLLM (pyFStr toolCall.toolName)
            actual.success actual.result actual.error
          let st := { st with
            conv := addMessageToConversation st.conv "user" ("[TOOL RESULT]\n" ++ t) }
          (true, some continuationPrompt, st)

/-- The `while iteration < MAX_TOOL_ITERATIONS` loop of `handle_llm_request`
(main.py lines 208–241), with `fuel = MAX_TOOL_ITERATIONS - iteration`
remaining iterations.  Each iteration calls the LLM once (`call_llm`, which
appends the user prompt and the assistant reply to the conversation), then
extracts and processes a tool call or emits the final response and stops.
If `extract_text_and_tool_call` raises (the `TypeError` path), the exception
is uncaught in `handle_llm_request` — the task dies on the spot: the state
is marked `crashed` and nothing further runs.  Returns the final `iteration`
counter and state. -/
def loopGo (env : LoopEnv) : Nat → String → Nat → LoopState → Nat × LoopState
  | 0, _, iteration, st => (iteration, st)
  | fuel + 1, currentPrompt, iteration, st =>
    let iteration := iteration + 1
    let response := env.llm st.llmCalls
    let conv := addMessageToConversation
      (addMessageToConversation st.conv "user" currentPrompt) "assistant" response
    let st := { st with llmCalls := st.llmCalls + 1, conv := conv }
    match extractTextAndToolCall response with
    | none => (iteration, { st with crashed := true })
    | some (_, some toolCall) =>
      let (shouldContinue, nextPrompt, st2) := processToolCall env toolCall st
      if shouldContinue then loopGo env fuel (nextPrompt.getD "") iteration st2
      else (iteration, st2)
    | some (_, none) =>
      (iteration, { st with outputs := st.outputs ++ [.llmResponse response] })

/-- `handle_llm_request` (main.py lines 188–250) on one originating request:
run the bounded loop from the given prompt and conversation, then — after
the loop, however it ended, unless the task died of an uncaught exception —
send the apology when the iteration counter reached `MAX_TOOL_ITERATIONS`. -/
def handleLlmRequest (env : LoopEnv) (prompt : String) (conv0 : List Msg) :
    Nat × LoopState :=
  let (iteration, st) := loopGo env MAX_TOOL_ITERATIONS prompt 0 { conv := conv0 }
  if st.crashed then (iteration, st)
  else if iteration ≥ MAX_TOOL_ITERATIONS then
    (iteration, { st with outputs := st.outputs ++ [.llmResponse apologyMessage] })
  else (iteration, st)

/-! ### The waiter map `tool_executions` as a transition system

`_process_tool_call` registers `tool_executions[request_id]` before waiting;
the `tool_result` branch of `websocket_endpoint` (main.py lines 507–529)
writes the payload and sets the event only when the id is present; the
waiter wakes, reads the payload and deletes its entry in `finally`; if
`asyncio.wait_for` times out first, the waiter synthesizes `timeoutResult`
and deletes the entry.  A delivery to a registered waiter and the waiter's
wake-and-cleanup are modelled as one atomic resolution (the claims speak at
this granularity; cooperative scheduling runs the woken waiter before its
entry can be observed again by the same-session flow). -/

/-- Correlation state: ids with a registered waiter, plus the log of waiter
resolutions in order. -/
structure CorrState where
  waiting : List Nat
  resolutions : List (Nat × ToolRes)

/-- Events touching the waiter map: an inbound `tool_result` for an id, or
the expiry of the bounded wait for an id. -/
inductive CorrEvent where
  | deliver (id : Nat) (r : ToolRes)
  | timeoutFire (id : Nat)

/-- The execution id an event concerns. -/
def CorrEvent.eventId : CorrEvent → Nat
  | .deliver id _ => id
  | .timeoutFire id => id

/-- One step of the waiter map:
* `deliver` to a registered id resolves the waiter with the payload and
  removes the entry; to an unregistered id it is a no-op on the map
  (`if execution_id and execution_id in tool_executions` fails — the message
  still updates the execution log, which is not part of this state);
* `timeoutFire` for a registered id synthesizes the timeout result and
  removes the entry; for an unregistered id the wait has already returned
  and nothing fires. -/
def corrStep (s : CorrState) : CorrEvent → CorrState
  | .deliver id r =>
    if id ∈ s.waiting then
      { waiting := s.waiting.erase id, resolutions := s.resolutions ++ [(id, r)] }
    else s
  | .timeoutFire id =>
    if id ∈ s.waiting then
      { waiting := s.waiting.erase id,
        resolutions := s.resolutions ++ [(id, timeoutResult)] }
    else s

/-- Run a sequence of correlation events. -/
def corrRun (s : CorrState) (events : List CorrEvent) : CorrState :=
  events.foldl corrStep s

/-- The resolutions of one execution id, in order. -/
def resolutionsFor (id : Nat) (s : CorrState) : List (Nat × ToolRes) :=
  s.resolutions.filter (fun p => p.1 = id)

/-! ## Theorems -/

/-! ### Conversation invariants (C10) -/

/-- Appending the same element on the right preserves the suffix relation. -/
theorem isSuffix_append_singleton {α : Type} {t p : List α} (h : t <:+ p)
    (m : α) : t ++ [m] <:+ p ++ [m] := by
  obtain ⟨q, hq⟩ := h
  exact ⟨q, by rw [← List.append_assoc, hq]⟩

/-- One `add_message_to_conversation` call preserves the conversation
invariant: the head stays, the length stays within the cap, and the tail
remains a suffix of everything appended so far. -/
theorem addMessage_invariant (sys : Msg) (conversation processed : List Msg)
    (role content : String)
    (h1 : conversation.head? = some sys)
    (h2 : conversation.length ≤ CONVERSATION_HISTORY_LIMIT + 1)
    (h3 : conversation.tail <:+ processed) :
    (addMessageToConversation conversation role content).head? = some sys ∧
    (addMessageToConversation conversation role content).length ≤
      CONVERSATION_HISTORY_LIMIT + 1 ∧
    (addMessageToConversation conversation role content).tail <:+
      processed ++ [⟨role, content⟩] := by
  obtain ⟨tl, rfl⟩ : ∃ tl, conversation = sys :: tl := by
    cases conversation with
    | nil => simp at h1
    | cons a b =>
      have ha : a = sys := by simpa using h1
      exact ⟨b, by rw [ha]⟩
  unfold addMessageToConversation
  by_cases hlen :
      ((sys :: tl) ++ [(⟨role, content⟩ : Msg)]).length >
        CONVERSATION_HISTORY_LIMIT + 1
  · have htl : tl.length = CONVERSATION_HISTORY_LIMIT := by
      simp at hlen h2; omega
    rw [if_pos hlen]
    have hdrop :
        ((sys :: tl) ++ [(⟨role, content⟩ : Msg)]).drop
            (((sys :: tl) ++ [(⟨role, content⟩ : Msg)]).length -
              CONVERSATION_HISTORY_LIMIT) =
          tl.drop 1 ++ [⟨role, content⟩] := by
      have hL : ((sys :: tl) ++ [(⟨role, content⟩ : Msg)]).length -
          CONVERSATION_HISTORY_LIMIT = 2 := by simp [htl, CONVERSATION_HISTORY_LIMIT]
      rw [hL]
      show ((sys :: (tl ++ [(⟨role, content⟩ : Msg)])).drop 2) = _
      rw [List.drop_succ_cons]
      exact List.drop_append_of_le_length
        (show 1 ≤ tl.length by rw [htl]; decide)
    rw [hdrop]
    refine ⟨rfl, ?_, ?_⟩
    · simp [htl, CONVERSATION_HISTORY_LIMIT]
    · show tl.drop 1 ++ [⟨role, content⟩] <:+ processed ++ [⟨role, content⟩]
      exact isSuffix_append_singleton
        (((List.drop_suffix 1 tl).trans (by simpa using h3))) _
  · rw [if_neg hlen]
    refine ⟨rfl, by simpa using Nat.le_of_not_lt hlen, ?_⟩
    show tl ++ [⟨role, content⟩] <:+ processed ++ [⟨role, content⟩]
    exact isSuffix_append_singleton (by simpa using h3) _

/-- The conversation invariant survives any sequence of
`add_message_to_conversation` calls. -/
theorem conversation_fold_invariant (sys : Msg) :
    ∀ (adds : List (String × String)) (conversation processed : List Msg),
      conversation.head? = some sys →
      conversation.length ≤ CONVERSATION_HISTORY_LIMIT + 1 →
      conversation.tail <:+ processed →
      (adds.foldl (fun c rc => addMessageToConversation c rc.1 rc.2)
          conversation).head? = some sys ∧
      (adds.foldl (fun c rc => addMessageToConversation c rc.1 rc.2)
          conversation).length ≤ CONVERSATION_HISTORY_LIMIT + 1 ∧
      (adds.foldl (fun c rc => addMessageToConversation c rc.1 rc.2)
          conversation).tail <:+
        processed ++ adds.map (fun rc => (⟨rc.1, rc.2⟩ : Msg))
  | [], c, p, h1, h2, h3 => by simpa using ⟨h1, h2, h3⟩
  | (role, content) :: rest, c, p, h1, h2, h3 => by
    obtain ⟨g1, g2, g3⟩ := addMessage_invariant sys c p role content h1 h2 h3
    have hrec := conversation_fold_invariant sys rest
      (addMessageToConversation c role content) (p ++ [⟨role, content⟩]) g1 g2 g3
    simpa [List.append_assoc] using hrec

/-- C10: starting from the conversation `get_or_create_conversation` builds
(`[system-prompt message]`), after any sequence of
`add_message_to_conversation` calls the first message is still the system
prompt, the length never exceeds `CONVERSATION_HISTORY_LIMIT + 1`, and the
rest of the list is a contiguous suffix of the appended messages — trimming
only ever evicts the oldest non-system messages. -/
theorem C10_theorem (sysContent : String) (adds : List (String × String)) :
    (adds.foldl (fun c rc => addMessageToConversation c rc.1 rc.2)
        [⟨"system", sysContent⟩]).head? = some ⟨"system", sysContent⟩ ∧
    (adds.foldl (fun c rc => addMessageToConversation c rc.1 rc.2)
        [⟨"system", sysContent⟩]).length ≤ CONVERSATION_HISTORY_LIMIT + 1 ∧
    (adds.foldl (fun c rc => addMessageToConversation c rc.1 rc.2)
        [⟨"system", sysContent⟩]).tail <:+
      adds.map (fun rc => (⟨rc.1, rc.2⟩ : Msg)) := by
  have h := conversation_fold_invariant ⟨"system", sysContent⟩ adds
    [⟨"system", sysContent⟩] [] rfl (by simp [CONVERSATION_HISTORY_LIMIT]) (by simp)
  simpa using h

/-! ### Path-permission skip (C2) -/

/-- `dict.get` on an absent key yields `None`. -/
theorem pyGet_eq_pynone_of_not_mem (params : List (String × PyValue))
    (name : String) (h : name ∉ params.map Prod.fst) :
    pyGet params name = .pynone := by
  induction params with
  | nil => rfl
  | cons p rest ih =>
    obtain ⟨k, v⟩ := p
    simp only [List.map_cons, List.mem_cons, not_or] at h
    have hk : (name == k) = false := by simpa using h.1
    simpa [pyGet, List.lookup, hk] using ih h.2

/-- C2: for every device table, device id and raw/validated parameter map,
validating permissions for a tool whose `permission_type` is `"path"` but
whose parameter map has no key named `"path"` (such as `copy_file` and
`move_file`, whose path-typed parameters are `source_path` and
`destination_path`) performs no path lookup and returns without raising,
regardless of the device's allowed path prefixes. -/
theorem C2_theorem (db : DevDB) (deviceId : String) (tool : Tool)
    (params : List (String × PyValue))
    (hty : tool.permissionType = some "path")
    (hno : "path" ∉ params.map Prod.fst) :
    validatePermissions db deviceId tool params = .ok () := by
  have hget := pyGet_eq_pynone_of_not_mem params "path" hno
  cases htr : tool.requiresPermission <;>
    simp [validatePermissions, hty, hget, htr]

/-- The device table for the C2 witness: `dev1` may only touch `/home`. -/
def c2DB : DevDB :=
  [("dev1", { allowedTools := [], allowedPaths := ["/home"], allowedApps := [] })]

/-- The raw parameters for the C2 witness: `copy_file` arguments entirely
outside the allowed prefixes, and no `"path"` key. -/
def c2Params : List (String × PyValue) :=
  [("source_path", .pystr "/etc/passwd"), ("destination_path", .pystr "/etc/copy")]

/-- Witness for C2: `copy_file` has `permission_type = "path"`, the map has
no `"path"` key, and the permission check passes even though both paths lie
outside the device's allowed prefixes. -/
theorem C2_witness :
    (copyFileTool.permissionType = some "path" ∧
      "path" ∉ c2Params.map Prod.fst) ∧
    validatePermissions c2DB "dev1" copyFileTool c2Params = .ok () :=
  ⟨⟨rfl, by decide⟩, C2_theorem c2DB "dev1" copyFileTool c2Params rfl (by decide)⟩

/-! ### Integer coercion (C9) -/

/-- An integer-typed parameter specification, used to exercise
`_validate_type`'s INTEGER branch. -/
def c9IntParam : ToolParameter := { name := "count", type := .INTEGER }

/-- C9 counterexample: the claim says a boolean yields `TypeMismatch`, but
`isinstance(True, int)` holds in Python, so `_validate_type` returns the
boolean unchanged. -/
theorem C9_counterexample :
    c9IntParam.type = .INTEGER ∧
    validateType "count" (.pybool true) c9IntParam = .ok (.pybool true) :=
  ⟨rfl, rfl⟩

/-- C9 (amended): for an integer-typed parameter, `_validate_type` accepts an
integer unchanged, accepts a boolean unchanged (a Python `bool` is an `int`),
coerces a string parseable as an integer, and rejects every other value of
the modelled domain — a non-parseable string, `None`, an array or an object —
with `TypeMismatch`. -/
theorem C9_amended (paramName : String) (pd : ToolParameter) (v : PyValue)
    (h : pd.type = .INTEGER) :
    validateType paramName v pd =
      (match v with
       | .pyint n => .ok (.pyint n)
       | .pybool b => .ok (.pybool b)
       | .pystr s =>
         (match pyIntOfStr s with
          | some n => .ok (.pyint n)
          | none => .error (.typeMismatch paramName .INTEGER))
       | _ => .error (.typeMismatch paramName .INTEGER)) := by
  cases v <;> simp [validateType, h]

/-- Witness for C9 (amended), at the coercing string input `"42"`. -/
theorem C9_witness :
    c9IntParam.type = .INTEGER ∧
    validateType "count" (.pystr "42") c9IntParam = .ok (.pyint 42) :=
  ⟨rfl, (C9_amended "count" c9IntParam (.pystr "42") rfl).trans rfl⟩

/-! ### Unknown parameters (C6) -/

/-- C6 counterexample: `{"bogus": "x"}` against `create_directory` contains
an undeclared key, yet validation fails with the missing-required error for
`path` — the declared-parameter phase runs first — not with
`UnknownParameter`. -/
theorem C6_counterexample :
    ("bogus" ∈ ([("bogus", PyValue.pystr "x")].map Prod.fst) ∧
      "bogus" ∉ createDirectoryTool.parameters.map ToolParameter.name) ∧
    validateParameters createDirectoryTool [("bogus", .pystr "x")]
        (fun _ _ => true) = .error (.missingRequired "path") ∧
    (match validateParameters createDirectoryTool [("bogus", .pystr "x")]
        (fun _ _ => true) with
     | .error (.unknownParams _) => False
     | _ => True) :=
  ⟨⟨by decide, by decide⟩, rfl, trivial⟩

/-- C6 (amended): a raw parameter map with a key not declared on the tool
never validates successfully; and when the declared-parameter phase itself
succeeds, the failure is exactly `UnknownParameter` listing the undeclared
keys.  (If a declared-parameter check fails first — e.g. a missing required
parameter — that earlier error is raised instead.) -/
theorem C6_amended (tool : Tool) (params : List (String × PyValue))
    (rmatch : String → String → Bool) (k : String)
    (hk : k ∈ params.map Prod.fst)
    (hnot : k ∉ tool.parameters.map ToolParameter.name) :
    (∀ out, validateParameters tool params rmatch ≠ .ok out) ∧
    (∀ v, processDeclaredParams tool params rmatch = .ok v →
      validateParameters tool params rmatch =
        .error (.unknownParams (unknownKeysOf tool params))) := by
  have hkmem : k ∈ unknownKeysOf tool params := by
    unfold unknownKeysOf
    rw [List.mem_filter]
    refine ⟨hk, ?_⟩
    simpa using hnot
  have hne : unknownKeysOf tool params ≠ [] := by
    intro hE
    rw [hE] at hkmem
    simp at hkmem
  constructor
  · intro out hout
    unfold validateParameters at hout
    cases hp : processDeclaredParams tool params rmatch with
    | error e => rw [hp] at hout; simp [Bind.bind, Except.bind] at hout
    | ok v =>
      rw [hp] at hout
      simp [Bind.bind, Except.bind, hne] at hout
  · intro v hv
    unfold validateParameters
    rw [hv]
    simp [Bind.bind, Except.bind, hne]

/-- Witness for C6 (amended): `get_running_processes` declares no
parameters, so the declared phase succeeds and `{"x": "y"}` fails with
`UnknownParameter` naming `x`. -/
theorem C6_witness :
    ("x" ∈ ([("x", PyValue.pystr "y")].map Prod.fst) ∧
      "x" ∉ getRunningProcessesTool.parameters.map ToolParameter.name) ∧
    validateParameters getRunningProcessesTool [("x", .pystr "y")]
        (fun _ _ => true) = .error (.unknownParams ["x"]) := by
  refine ⟨⟨by decide, by decide⟩, ?_⟩
  have h := (C6_amended getRunningProcessesTool [("x", .pystr "y")]
    (fun _ _ => true) "x" (by decide) (by decide)).2 [] rfl
  exact h.trans rfl

/-! ### Result correlation (C4) -/

/-- A correlation event for an id with no registered waiter leaves the state
with that id still unregistered and adds no resolution for it. -/
theorem corrStep_not_waiting (s : CorrState) (id : Nat) (e : CorrEvent)
    (h : id ∉ s.waiting) :
    id ∉ (corrStep s e).waiting ∧
    resolutionsFor id (corrStep s e) = resolutionsFor id s := by
  cases e with
  | deliver id2 r =>
    by_cases hm : id2 ∈ s.waiting
    · have hne : id2 ≠ id := fun hEq => h (hEq ▸ hm)
      refine ⟨fun hmem => h ?_, ?_⟩
      · simpa [corrStep, hm] using List.mem_of_mem_erase (by simpa [corrStep, hm] using hmem)
      · simp [corrStep, hm, resolutionsFor, hne]
    · simp [corrStep, hm, resolutionsFor, h]
  | timeoutFire id2 =>
    by_cases hm : id2 ∈ s.waiting
    · have hne : id2 ≠ id := fun hEq => h (hEq ▸ hm)
      refine ⟨fun hmem => h ?_, ?_⟩
      · simpa [corrStep, hm] using List.mem_of_mem_erase (by simpa [corrStep, hm] using hmem)
      · simp [corrStep, hm, resolutionsFor, hne]
    · simp [corrStep, hm, resolutionsFor, h]

/-- Once an id is unregistered, no sequence of further events resolves it
again (late deliveries and timer expiries are no-ops for it). -/
theorem corrRun_not_waiting (id : Nat) :
    ∀ (events : List CorrEvent) (s : CorrState), id ∉ s.waiting →
      id ∉ (corrRun s events).waiting ∧
      resolutionsFor id (corrRun s events) = resolutionsFor id s
  | [], _, h => ⟨h, rfl⟩
  | e :: rest, s, h => by
    obtain ⟨h1, h2⟩ := corrStep_not_waiting s id e h
    obtain ⟨g1, g2⟩ := corrRun_not_waiting id rest (corrStep s e) h1
    exact ⟨by simpa [corrRun] using g1, by simpa [corrRun, h2] using g2⟩

/-- An event for a different id keeps a registered waiter registered, keeps
the waiting list duplicate-free and adds no resolution for the watched id. -/
theorem corrStep_other (s : CorrState) (id : Nat) (e : CorrEvent)
    (hne : e.eventId ≠ id) (hnodup : s.waiting.Nodup) (h : id ∈ s.waiting) :
    id ∈ (corrStep s e).waiting ∧ (corrStep s e).waiting.Nodup ∧
    resolutionsFor id (corrStep s e) = resolutionsFor id s := by
  cases e with
  | deliver id2 r =>
    simp only [CorrEvent.eventId] at hne
    have hid : id ≠ id2 := fun hEq => hne hEq.symm
    by_cases hm : id2 ∈ s.waiting
    · refine ⟨?_, ?_, ?_⟩
      · simpa [corrStep, hm] using (List.mem_erase_of_ne hid).mpr h
      · simpa [corrStep, hm] using hnodup.erase id2
      · simp [corrStep, hm, resolutionsFor, hne]
    · simpa [corrStep, hm] using ⟨h, hnodup⟩
  | timeoutFire id2 =>
    simp only [CorrEvent.eventId] at hne
    have hid : id ≠ id2 := fun hEq => hne hEq.symm
    by_cases hm : id2 ∈ s.waiting
    · refine ⟨?_, ?_, ?_⟩
      · simpa [corrStep, hm] using (List.mem_erase_of_ne hid).mpr h
      · simpa [corrStep, hm] using hnodup.erase id2
      · simp [corrStep, hm, resolutionsFor, hne]
    · simpa [corrStep, hm] using ⟨h, hnodup⟩

/-- A run of events that never mentions the watched id preserves its
registration, the duplicate-freedom of the waiting list, and its
resolutions. -/
theorem corrRun_other (id : Nat) :
    ∀ (events : List CorrEvent) (s : CorrState),
      (∀ e ∈ events, e.eventId ≠ id) → s.waiting.Nodup → id ∈ s.waiting →
      id ∈ (corrRun s events).waiting ∧ (corrRun s events).waiting.Nodup ∧
      resolutionsFor id (corrRun s events) = resolutionsFor id s
  | [], _, _, hnodup, h => ⟨h, hnodup, rfl⟩
  | e :: rest, s, hall, hnodup, h => by
    obtain ⟨h1, h2, h3⟩ :=
      corrStep_other s id e (hall e (List.mem_cons_self e rest)) hnodup h
    obtain ⟨g1, g2, g3⟩ := corrRun_other id rest (corrStep s e)
      (fun e2 he2 => hall e2 (List.mem_cons_of_mem e he2)) h2 h1
    exact ⟨by simpa [corrRun] using g1, by simpa [corrRun] using g2,
      by simpa [corrRun, h3] using g3⟩

/-- C4: for an execution id with a registered waiter (and a duplicate-free
waiter map, as a dict guarantees): a delivery arriving before the timeout —
after any events for other ids — resolves the waiter with the delivered
payload exactly once; if instead the bounded wait expires first, the waiter
resolves with the synthesized timeout failure exactly once; and in both
cases the entry is removed, so every later event for that id — in
particular a second delivery — resolves nothing, and a delivery for an
unregistered id leaves the state untouched. -/
theorem C4_theorem (s : CorrState) (id : Nat) (r r2 : ToolRes)
    (pre rest : List CorrEvent)
    (hnodup : s.waiting.Nodup)
    (hw : id ∈ s.waiting)
    (hpre : ∀ e ∈ pre, e.eventId ≠ id) :
    (resolutionsFor id (corrRun s (pre ++ .deliver id r :: rest)) =
        resolutionsFor id s ++ [(id, r)]) ∧
    (resolutionsFor id (corrRun s (pre ++ .timeoutFire id :: rest)) =
        resolutionsFor id s ++ [(id, timeoutResult)]) ∧
    (∀ s2 : CorrState, id ∉ s2.waiting → corrStep s2 (.deliver id r2) = s2) := by
  obtain ⟨p1, p2, p3⟩ := corrRun_other id pre s hpre hnodup hw
  have hrunAppend : ∀ (e : CorrEvent) (tail : List CorrEvent),
      corrRun s (pre ++ e :: tail) = corrRun (corrStep (corrRun s pre) e) tail := by
    intro e tail
    simp [corrRun, List.foldl_append]
  refine ⟨?_, ?_, ?_⟩
  · rw [hrunAppend]
    have hstep : corrStep (corrRun s pre) (.deliver id r) =
        ⟨(corrRun s pre).waiting.erase id,
         (corrRun s pre).resolutions ++ [(id, r)]⟩ := by
      simp [corrStep, p1]
    rw [hstep]
    obtain ⟨_, hres⟩ := corrRun_not_waiting id rest
      ⟨(corrRun s pre).waiting.erase id,
       (corrRun s pre).resolutions ++ [(id, r)]⟩ p2.not_mem_erase
    rw [hres]
    have hsplit : resolutionsFor id
        (⟨(corrRun s pre).waiting.erase id,
          (corrRun s pre).resolutions ++ [(id, r)]⟩ : CorrState) =
        resolutionsFor id (corrRun s pre) ++ [(id, r)] := by
      simp [resolutionsFor]
    rw [hsplit, p3]
  · rw [hrunAppend]
    have hstep : corrStep (corrRun s pre) (.timeoutFire id) =
        ⟨(corrRun s pre).waiting.erase id,
         (corrRun s pre).resolutions ++ [(id, timeoutResult)]⟩ := by
      simp [corrStep, p1]
    rw [hstep]
    obtain ⟨_, hres⟩ := corrRun_not_waiting id rest
      ⟨(corrRun s pre).waiting.erase id,
       (corrRun s pre).resolutions ++ [(id, timeoutResult)]⟩ p2.not_mem_erase
    rw [hres]
    have hsplit : resolutionsFor id
        (⟨(corrRun s pre).waiting.erase id,
          (corrRun s pre).resolutions ++ [(id, timeoutResult)]⟩ : CorrState) =
        resolutionsFor id (corrRun s pre) ++ [(id, timeoutResult)] := by
      simp [resolutionsFor]
    rw [hsplit, p3]
  · intro s2 h2
    simp [corrStep, h2]

/-- Witness for C4: a single registered waiter for id 7; a delivery followed
by a late duplicate resolves it once with the first payload; a lone timeout
resolves it once with the synthesized failure; the no-op clause applies to
the emptied state. -/
theorem C4_witness :
    ((7 : Nat) ∈ (⟨[7], []⟩ : CorrState).waiting ∧
      (⟨[7], []⟩ : CorrState).waiting.Nodup) ∧
    resolutionsFor 7 (corrRun ⟨[7], []⟩
        [.deliver 7 { success := true }, .deliver 7 { success := false }]) =
      [(7, { success := true })] ∧
    resolutionsFor 7 (corrRun ⟨[7], []⟩ [.timeoutFire 7]) =
      [(7, timeoutResult)] := by
  have h := C4_theorem ⟨[7], []⟩ 7 { success := true } { success := false }
    [] [.deliver 7 { success := false }] (by simp) (by simp) (by simp)
  refine ⟨⟨by simp, by simp⟩, ?_, ?_⟩
  · simpa [resolutionsFor] using h.1
  · have h2 := C4_theorem ⟨[7], []⟩ 7 { success := true } { success := false }
      [] [] (by simp) (by simp) (by simp)
    simpa [resolutionsFor] using h2.2.1

/-! ### Execution-record creation (C1) -/

/-- C1 counterexample: a `ToolRouter.execute_tool` call for an unregistered
tool name returns a validation error and creates no `ExecutionRecord` at all
— not exactly one. -/
theorem C1_counterexample :
    (executeTool [] "dev1" (.pystr "no_such_tool") (.pydict []) true
        (fun _ _ => true) []).2.length = 0 ∧
    (executeTool [] "dev1" (.pystr "no_such_tool") (.pydict []) true
        (fun _ _ => true) []).1.error = some "validation_error" :=
  ⟨rfl, rfl⟩

/-- C1 (amended): one `ToolRouter.execute_tool` call creates exactly one
`ExecutionRecord` iff the tool exists and parameter/permission validation
succeeds (covering both the transport-success and transport-failure
outcomes), and creates none otherwise (unknown tool, or validation
failure). -/
theorem C1_amended (db : DevDB) (deviceId : String) (toolName : PyValue)
    (rawParams : List (String × PyValue)) (sendOk : Bool)
    (rmatch : String → String → Bool) (log : List ExecRecord) :
    (executeTool db deviceId toolName (.pydict rawParams) sendOk rmatch
        log).2.length =
      log.length +
        (match registryGet toolName with
         | none => 0
         | some tool =>
           match validateToolRequest db deviceId tool rawParams rmatch with
           | .error _ => 0
           | .ok _ => 1) := by
  unfold executeTool
  cases hreg : registryGet toolName with
  | none => simp
  | some tool =>
    cases hval : validateToolRequest db deviceId tool rawParams rmatch with
    | error e => simp [hval]
    | ok v =>
      cases sendOk <;> simp [hval, logToolExecution, markExecutionFailed]

/-! ### Agent-loop lemmas (C3, C5, C8) -/

/-- With a device attached to the session, `_process_tool_call` always
continues the loop with the fixed continuation prompt, sends nothing on the
WebSocket and performs no LLM call. -/
theorem processToolCall_some (env : LoopEnv) (tc : ToolCall) (st : LoopState)
    (d : String) (hd : env.deviceId = some d) :
    (processToolCall env tc st).1 = true ∧
    (processToolCall env tc st).2.1 = some continuationPrompt ∧
    (processToolCall env tc st).2.2.outputs = st.outputs ∧
    (processToolCall env tc st).2.2.llmCalls = st.llmCalls ∧
    (processToolCall env tc st).2.2.crashed = st.crashed := by
  unfold processToolCall
  rw [hd]
  rcases hE : executeTool env.db d tc.toolName tc.parameters
      (env.sendOk (st.execLog.length + 1)) env.rmatch st.execLog with ⟨result, log2⟩
  simp only [hE]
  rcases result with ⟨succ, eid, err, msg⟩
  cases succ with
  | false => simp [toolFailureContinue]
  | true =>
    cases eid with
    | none => simp [toolFailureContinue]
    | some rid =>
      by_cases hrid : rid = 0 <;> simp [hrid, toolFailureContinue]

/-- `_process_tool_call` never performs an LLM call, with or without a
device. -/
theorem processToolCall_llmCalls (env : LoopEnv) (tc : ToolCall)
    (st : LoopState) :
    (processToolCall env tc st).2.2.llmCalls = st.llmCalls := by
  cases hd : env.deviceId with
  | none => simp [processToolCall, hd]
  | some d => exact (processToolCall_some env tc st d hd).2.2.2.1

/-- Each remaining loop iteration performs at most one LLM call. -/
theorem loopGo_calls (env : LoopEnv) :
    ∀ (fuel : Nat) (prompt : String) (iteration : Nat) (st : LoopState),
      (loopGo env fuel prompt iteration st).2.llmCalls ≤ st.llmCalls + fuel
  | 0, _, _, st => by simp [loopGo]
  | fuel + 1, prompt, iteration, st => by
    unfold loopGo
    rcases hx : extractTextAndToolCall (env.llm st.llmCalls) with _ | ⟨text, _ | tc⟩
    · simp only [hx]
      show st.llmCalls + 1 ≤ st.llmCalls + (fuel + 1)
      omega
    · simp only [hx]
      show st.llmCalls + 1 ≤ st.llmCalls + (fuel + 1)
      omega
    · simp only [hx]
      generalize hst1 : ({ st with llmCalls := st.llmCalls + 1, conv := addMessageToConversation (addMessageToConversation st.conv "user" prompt) "assistant" (env.llm st.llmCalls) } : LoopState) = st1
      have hcalls : (processToolCall env tc st1).2.2.llmCalls =
          st.llmCalls + 1 := by
        rw [processToolCall_llmCalls env tc st1, ← hst1]
      by_cases hc : (processToolCall env tc st1).1 = true
      · rw [if_pos hc]
        have hrec := loopGo_calls env fuel
          ((processToolCall env tc st1).2.1.getD "") (iteration + 1)
          (processToolCall env tc st1).2.2
        refine le_trans hrec ?_
        rw [hcalls]
        omega
      · rw [if_neg hc]
        show (processToolCall env tc st1).2.2.llmCalls ≤ st.llmCalls + (fuel + 1)
        omega

/-- C3: for every environment (every sequence of LLM responses, tool
results, transport outcomes) and every starting prompt and conversation,
one `handle_llm_request` run performs at most `MAX_TOOL_ITERATIONS` LLM
calls. -/
theorem C3_theorem (env : LoopEnv) (prompt : String) (conv0 : List Msg) :
    (handleLlmRequest env prompt conv0).2.llmCalls ≤ MAX_TOOL_ITERATIONS := by
  unfold handleLlmRequest
  rcases hL : loopGo env MAX_TOOL_ITERATIONS prompt 0 { conv := conv0 }
    with ⟨iter, st⟩
  have h := loopGo_calls env MAX_TOOL_ITERATIONS prompt 0 { conv := conv0 }
  rw [hL] at h
  by_cases hcr : st.crashed <;> by_cases hge : iter ≥ MAX_TOOL_ITERATIONS <;>
    simpa [hcr, hge] using h

/-! ### Unknown tool is not terminal (C5) -/

/-- The not-found message of the router is never the empty string. -/
theorem notFoundMessage_ne_empty (x : String) :
    ("Tool \x27" ++ x ++ "\x27 not found" : String) ≠ "" := by
  intro hE
  have hlen := congrArg String.length hE
  rw [String.length_append, String.length_append] at hlen
  simp at hlen
  exact absurd hlen.1.1 (by decide)

/-- C5 (amended): a tool call whose name is not in the registry is handled
like any validation failure, not as a terminal error: with a device present,
`_process_tool_call` appends the not-found failure to the conversation as a
`[TOOL RESULT]` message and returns `should_continue = True` with the fixed
continuation prompt, so the loop goes on to further LLM calls; no error is
sent to the caller.  Only a missing device is terminal. -/
theorem C5_amended (env : LoopEnv) (tc : ToolCall) (st : LoopState)
    (d : String) (hdev : env.deviceId = some d)
    (hreg : registryGet tc.toolName = none) :
    processToolCall env tc st =
      (true, some continuationPrompt,
       { st with conv := addMessageToConversation st.conv "user"
                   ("[TOOL RESULT]\n" ++ formatToolResultForLLM (pyFStr tc.toolName)
                     false .pynone
                     (.pystr ("Tool \x27" ++ pyFStr tc.toolName ++ "\x27 not found"))) }) := by
  unfold processToolCall
  simp only [hdev]
  have hexec : executeTool env.db d tc.toolName tc.parameters
      (env.sendOk (st.execLog.length + 1)) env.rmatch st.execLog =
      ({ success := false, error := some "validation_error", message := "Tool \x27" ++ pyFStr tc.toolName ++ "\x27 not found" }, st.execLog) := by
    unfold executeTool
    rw [hreg]
  rw [hexec]
  simp [toolFailureContinue, notFoundMessage_ne_empty (pyFStr tc.toolName)]

/-- The LLM response used by the C5 witness and counterexample: a fenced
tool call to a name absent from the registry. -/
def c5UnknownToolText : String :=
  "```json\n\x7b\"tool_call\": \x7b\"tool_name\": \"made_up_tool\", \"parameters\": \x7b\x7d\x7d\x7d\n```"

/-- The environment of the C5 counterexample: first response calls the
unknown tool, second response is plain text. -/
def c5Env : LoopEnv :=
  { llm := fun n => if n = 0 then c5UnknownToolText else "All done.",
    delivery := fun _ => none,
    sendOk := fun _ => true,
    deviceId := some "dev1",
    db := [("dev1", { allowedTools := [], allowedPaths := [], allowedApps := [] })],
    rmatch := fun _ _ => true }

/-- C5 counterexample: after the first response's tool call to an
unregistered name, the loop is not terminated — it performs a second LLM
call and finishes with that response; no direct error is reported to the
caller. -/
theorem C5_counterexample :
    (handleLlmRequest c5Env "do it" [⟨"system", "SYS"⟩]).2.llmCalls = 2 ∧
    (handleLlmRequest c5Env "do it" [⟨"system", "SYS"⟩]).2.outputs =
      [.llmResponse "All done."] :=
  ⟨rfl, rfl⟩

/-- Witness for C5 (amended), at a concrete unknown-tool call. -/
theorem C5_witness :
    (c5Env.deviceId = some "dev1" ∧
      registryGet (PyValue.pystr "made_up_tool") = none) ∧
    processToolCall c5Env ⟨.pystr "made_up_tool", .pydict []⟩
        { conv := [⟨"system", "SYS"⟩] } =
      (true, some continuationPrompt,
       { conv := addMessageToConversation [⟨"system", "SYS"⟩] "user"
           ("[TOOL RESULT]\n" ++ formatToolResultForLLM "made_up_tool" false
             .pynone (.pystr "Tool \x27made_up_tool\x27 not found")) }) :=
  ⟨⟨rfl, rfl⟩,
   C5_amended c5Env ⟨.pystr "made_up_tool", .pydict []⟩
     { conv := [⟨"system", "SYS"⟩] } "dev1" rfl rfl⟩

/-! ### Extractor cleaning bug (C7) -/

/-- The LLM response of the C7 failing input: prose, a fenced `tool_call`
block, prose. -/
def c7Input : String :=
  "Sure!\n```json\n\x7b\"tool_call\": \x7b\"tool_name\": \"get_running_processes\", \"parameters\": \x7b\x7d\x7d\x7d\n```\nDone."

/-- C7: at the failing input, the extractor does find and return the fenced
tool call, but the "cleaned" text it returns is not the original with the
accepted JSON span and its fence removed (which would read
`"Sure!\n\nDone."`): the fence markers and the whole JSON text except the
object's final closing brace survive — the fence-stripping `re.sub` result
is overwritten, and the scanning loop has already emitted a span's
characters by the time its closing brace is accepted. -/
theorem C7_theorem :
    ((extractTextAndToolCall c7Input).map
        (fun p => p.2.map (fun tc => pyFStr tc.toolName))) =
      some (some "get_running_processes") ∧
    ((extractTextAndToolCall c7Input).map Prod.fst) =
      some "Sure!\n```json\n\x7b\"tool_call\": \x7b\"tool_name\": \"get_running_processes\", \"parameters\": \x7b\x7d\x7d\n```\nDone." ∧
    ((extractTextAndToolCall c7Input).map (fun p => subIn "```json" p.1)) =
      some true :=
  ⟨rfl, rfl, rfl⟩

/-! ### Final response and apology (C8) -/

/-- If, with a device present, the first `k` responses each yield a found
tool call (no `TypeError`, no plain text) and the `(k+1)`-st yields none
without raising, the loop runs exactly `k + 1` iterations, its only output
is that final response, and the task does not crash. -/
theorem loopGo_firstNone (env : LoopEnv) (d : String)
    (hdev : env.deviceId = some d) :
    ∀ (fuel k : Nat) (prompt : String) (iteration : Nat) (st : LoopState),
      k < fuel →
      (∀ j, j < k → ∃ tc,
        parseToolCallFromResponse (env.llm (st.llmCalls + j)) = .found tc) →
      parseToolCallFromResponse (env.llm (st.llmCalls + k)) = .nofind →
      (loopGo env fuel prompt iteration st).1 = iteration + k + 1 ∧
      (loopGo env fuel prompt iteration st).2.outputs =
        st.outputs ++ [.llmResponse (env.llm (st.llmCalls + k))] ∧
      (loopGo env fuel prompt iteration st).2.crashed = st.crashed
  | 0, k, _, _, _, hk, _, _ => absurd hk (Nat.not_lt_zero k)
  | fuel + 1, 0, prompt, iteration, st, _, _, hfin => by
    unfold loopGo
    rw [Nat.add_zero] at hfin
    have hx : extractTextAndToolCall (env.llm st.llmCalls) =
        some (env.llm st.llmCalls, none) := by
      unfold extractTextAndToolCall
      rw [hfin]
    simp only [hx]
    exact ⟨by simp, by simp, by simp⟩
  | fuel + 1, k + 1, prompt, iteration, st, hk, hprev, hfin => by
    unfold loopGo
    have h0 := hprev 0 (Nat.succ_pos k)
    rw [Nat.add_zero] at h0
    obtain ⟨tc, htc⟩ := h0
    have hx : extractTextAndToolCall (env.llm st.llmCalls) =
        some (pyStrip (String.mk (cleanScan (env.llm st.llmCalls).data)),
          some tc) := by
      unfold extractTextAndToolCall
      rw [htc]
    simp only [hx]
    generalize hst1 : ({ st with llmCalls := st.llmCalls + 1, conv := addMessageToConversation (addMessageToConversation st.conv "user" prompt) "assistant" (env.llm st.llmCalls) } : LoopState) = st1
    obtain ⟨hc, _, hout, hcalls, hcrash⟩ := processToolCall_some env tc st1 d hdev
    have hst2calls : (processToolCall env tc st1).2.2.llmCalls =
        st.llmCalls + 1 := by rw [hcalls, ← hst1]
    have hst2out : (processToolCall env tc st1).2.2.outputs = st.outputs := by
      rw [hout, ← hst1]
    have hst2crash : (processToolCall env tc st1).2.2.crashed = st.crashed := by
      rw [hcrash, ← hst1]
    have hrec := loopGo_firstNone env d hdev fuel k
      ((processToolCall env tc st1).2.1.getD "") (iteration + 1)
      (processToolCall env tc st1).2.2
      (Nat.lt_of_succ_lt_succ hk)
      (fun j hj => by
        rw [hst2calls]
        have hiso := hprev (j + 1) (Nat.succ_lt_succ hj)
        rwa [show st.llmCalls + (j + 1) = st.llmCalls + 1 + j by omega] at hiso)
      (by
        rw [hst2calls]
        rwa [show st.llmCalls + (k + 1) = st.llmCalls + 1 + k by omega] at hfin)
    rw [if_pos hc]
    refine ⟨?_, ?_, ?_⟩
    · rw [hrec.1]; omega
    · rw [hrec.2.1, hst2out, hst2calls,
        show st.llmCalls + 1 + k = st.llmCalls + (k + 1) by omega]
    · rw [hrec.2.2, hst2crash]

/-- C8 (amended): when some iteration's LLM response contains no tool call
(all earlier ones containing one, with a device attached), the loop emits
that response as the final one and stops iterating; but the synthesized
apology is emitted whenever the loop counter reached `MAX_TOOL_ITERATIONS`,
which includes the case where the final text response landed on the last
allowed iteration — the post-loop bound check does not distinguish a
final-response exit on the last iteration from exhaustion, so the apology
then accompanies the final response.  Only when the final response arrives
before the last iteration is it emitted alone. -/
theorem C8_amended (env : LoopEnv) (prompt : String) (conv0 : List Msg)
    (k : Nat) (d : String) (hdev : env.deviceId = some d)
    (hk : k < MAX_TOOL_ITERATIONS)
    (hprev : ∀ j, j < k → ∃ tc,
      parseToolCallFromResponse (env.llm j) = .found tc)
    (hfin : parseToolCallFromResponse (env.llm k) = .nofind) :
    (handleLlmRequest env prompt conv0).2.outputs =
      [.llmResponse (env.llm k)] ++
        (if k + 1 = MAX_TOOL_ITERATIONS then [.llmResponse apologyMessage]
         else []) := by
  unfold handleLlmRequest
  have h := loopGo_firstNone env d hdev MAX_TOOL_ITERATIONS k prompt 0
    { conv := conv0 } hk (by simpa using hprev) (by simpa using hfin)
  rcases hL : loopGo env MAX_TOOL_ITERATIONS prompt 0 { conv := conv0 }
    with ⟨iter, stf⟩
  rw [hL] at h
  obtain ⟨h1, h2, h3⟩ := h
  simp at h1 h2 h3
  by_cases hEq : k + 1 = MAX_TOOL_ITERATIONS
  · have hge : iter ≥ MAX_TOOL_ITERATIONS := by omega
    simp [h3, hge, hEq, h2]
  · have hge : ¬ iter ≥ MAX_TOOL_ITERATIONS := by omega
    simp [h3, hge, hEq, h2]

/-- The fenced `get_running_processes` call the C8 counterexample's LLM
keeps producing (a permissionless tool, so validation always passes). -/
def c8ToolText : String :=
  "```json\n\x7b\"tool_call\": \x7b\"tool_name\": \"get_running_processes\", \"parameters\": \x7b\x7d\x7d\x7d\n```"

/-- The C8 counterexample environment: four tool-calling responses, then a
plain final answer exactly on the fifth (last allowed) iteration; every
dispatch is delivered successfully before the timeout. -/
def c8Env : LoopEnv :=
  { llm := fun n => if n < 4 then c8ToolText else "Final answer.",
    delivery := fun _ => some { success := true },
    sendOk := fun _ => true,
    deviceId := some "dev1",
    db := [("dev1", { allowedTools := [], allowedPaths := [], allowedApps := [] })],
    rmatch := fun _ _ => true }

set_option maxHeartbeats 1000000 in
/-- C8 counterexample: the fifth response has no tool call and is emitted as
the final response, yet the apology is sent in addition — refuting "never in
addition to one".  (The run is evaluated through the loop characterization
`loopGo_firstNone` rather than by brute-force kernel reduction, evaluating
the extractor once per distinct response.) -/
theorem C8_counterexample :
    parseToolCallFromResponse (c8Env.llm 4) = .nofind ∧
    (handleLlmRequest c8Env "go" [⟨"system", "SYS"⟩]).2.outputs =
      [.llmResponse "Final answer.", .llmResponse apologyMessage] := by
  have hfound : parseToolCallFromResponse c8ToolText =
      .found ⟨.pystr "get_running_processes", .pydict []⟩ := rfl
  have hno : parseToolCallFromResponse "Final answer." = .nofind := rfl
  refine ⟨hno, ?_⟩
  have hprev : ∀ j, j < 4 → ∃ tc,
      parseToolCallFromResponse (c8Env.llm j) = ExtractOutcome.found tc := by
    intro j hj
    refine ⟨⟨.pystr "get_running_processes", .pydict []⟩, ?_⟩
    have hx : c8Env.llm j = c8ToolText := by
      show (if j < 4 then c8ToolText else "Final answer.") = c8ToolText
      rw [if_pos hj]
    rw [hx]
    exact hfound
  unfold handleLlmRequest
  have h := loopGo_firstNone c8Env "dev1" rfl MAX_TOOL_ITERATIONS 4 "go" 0
    { conv := [⟨"system", "SYS"⟩] } (by decide)
    (by simpa using hprev) (by simpa using hno)
  rcases hL : loopGo c8Env MAX_TOOL_ITERATIONS "go" 0
    { conv := [⟨"system", "SYS"⟩] } with ⟨iter, stf⟩
  rw [hL] at h
  obtain ⟨h1, h2, h3⟩ := h
  simp at h1 h2 h3
  rw [show c8Env.llm 4 = "Final answer." from rfl] at h2
  have hge : iter ≥ MAX_TOOL_ITERATIONS := by rw [h1]; decide
  simp [h3, hge, h2]

/-- The C8 witness environment: the very first response is already a plain
text answer. -/
def c8wEnv : LoopEnv :=
  { llm := fun _ => "Hello there.",
    delivery := fun _ => none,
    sendOk := fun _ => true,
    deviceId := some "dev1",
    db := [],
    rmatch := fun _ _ => true }

/-- Witness for C8 (amended): a no-tool-call response on the first iteration
is emitted as the final response with no apology. -/
theorem C8_witness :
    (c8wEnv.deviceId = some "dev1" ∧ (0 : Nat) < MAX_TOOL_ITERATIONS ∧
      parseToolCallFromResponse (c8wEnv.llm 0) = .nofind) ∧
    (handleLlmRequest c8wEnv "hi" [⟨"system", "SYS"⟩]).2.outputs =
      [.llmResponse "Hello there."] := by
  refine ⟨⟨rfl, by decide, rfl⟩, ?_⟩
  have h := C8_amended c8wEnv "hi" [⟨"system", "SYS"⟩] 0 "dev1" rfl (by decide)
    (fun j hj => absurd hj (Nat.not_lt_zero j)) rfl
  simpa using h

end Orion
